import Mathlib

/-!
# Smart Sensor Hub: selectors, hardware drivers and the power-aware sampling task

A shallow embedding of `src/app/app_main.c`, `src/app/app_config.h`,
`src/sensors/sensor_if.c`, `src/sensors/light_if.c`, `src/sensors/env_if.c`,
`src/sensors/light_tsl2591.c`, `src/sensors/sensor_hw_temp.c` and the three simulators
`src/sensors/light_sim_tsl2591.c`, `src/sensors/env_sim_bim280.c`,
`src/sensors/sensor_sim_temp.c`.

Conventions of the embedding

* C statics become fields of explicit state records; every function takes the
  state and returns the new one.
* `uint32_t` values are naturals, reduced modulo `2^32` where the C code can wrap.
* `float` values are rationals and float operations are taken as exact, except where
  an integer is derived from a float product (the raw counts of the light simulator):
  there the product is rounded to binary32 before it is truncated. `sinf` is a
  parameter of the simulated reads.
* A pointer to an output record is an `Option`: `none` is `NULL`, `some d` is a
  buffer that currently holds `d`.
* A function pointer is an `Option` of a function: `none` is `NULL`.
* Calls through a descriptor and messages handed to the logger are recorded as
  a list of events returned next to the result.
-/

namespace SensorHub

/-! ## Events -/

/-- Severity of a message handed to the logging collaborator (`LOG_DEBUG` .. `LOG_ERROR`). -/
inductive LogLevel
  | DEBUG
  | INFO
  | WARN
  | ERROR
  deriving DecidableEq, Repr

/-- Observable actions of a selector or of a task body: a message for the logger,
a call through the `init` pointer of a descriptor, a call through its `read` pointer. -/
inductive Event
  | log (level : LogLevel) (msg : String)
  | init_call
  | read_call
  deriving DecidableEq, Repr

/-- Number of calls through a descriptor's `read` pointer in an event list. -/
def readCalls (es : List Event) : Nat :=
  es.count Event.read_call

/-- Number of calls through a descriptor's `init` pointer in an event list. -/
def initCalls (es : List Event) : Nat :=
  es.count Event.init_call

/-! ## Machine arithmetic -/

/-- Conversion to `uint32_t`. -/
def u32 (n : Nat) : Nat :=
  n % 2 ^ 32

/-- Subtraction of two `uint32_t` values, as C computes it (modulo `2^32`). -/
def u32_sub (a b : Nat) : Nat :=
  (a % 2 ^ 32 + (2 ^ 32 - b % 2 ^ 32)) % 2 ^ 32

/-! ## app_config.h -/

/-- Sampling period in ACTIVE mode (ms). -/
def SENSOR_PERIOD_ACTIVE_MS : Nat := 1000

/-- Sampling period in IDLE mode (ms). -/
def SENSOR_PERIOD_IDLE_MS : Nat := 5000

/-- Sampling period in SLEEP mode (ms). -/
def SENSOR_PERIOD_SLEEP_MS : Nat := 30000

/-- Sampling period in STOP mode (ms); 0 disables sampling. -/
def SENSOR_PERIOD_STOP_MS : Nat := 0

/-- The backend flag pair of one quantity in `app_config.h` (`APP_USE_SIM_*` /
`APP_USE_HW_*`): the build fails unless exactly one of the two flags is 1, so a build is
either `SIM` or `HW`. -/
inductive BuildChoice
  | SIM
  | HW
  deriving DecidableEq, Repr

/-- The branch of an `#if SIM ... #elif HW ...` block that is compiled in. -/
def BuildChoice.pick {α : Type} (b : BuildChoice) (sim hw : α) : α :=
  match b with
  | BuildChoice.SIM => sim
  | BuildChoice.HW => hw

/-! ## Power manager (interface only) -/

/-- Modelled from the spec: `power_manager.h` is not among the sources. `PowerMode_t` is
the C enumeration with the four enumerators the spec lists; a C object of that type can
also hold an integer that is none of them, which is what `other` stands for. -/
inductive PowerMode_t
  | POWER_MODE_ACTIVE
  | POWER_MODE_IDLE
  | POWER_MODE_SLEEP
  | POWER_MODE_STOP
  | other
  deriving DecidableEq, Repr

/-! ## sensor_if.h -/

/-- Generic sensor sample (`SensorData_t`). -/
structure SensorData_t where
  value : ℚ
  timestamp : Nat
  mode : Nat
  deriving DecidableEq

/-- Descriptor of a temperature backend (`SensorIF_t`): two function pointers acting on
the backend-side state `σ` (driver statics, simulator statics, bus, clock). -/
structure SensorIF_t (σ : Type) where
  init : Option (σ → Bool × σ)
  read : Option (Option SensorData_t → σ → Bool × Option SensorData_t × σ)

/-! ## sensor_if.c -/

/-- Statics of `sensor_if.c` together with the backend-side state. -/
structure SensorIF_State (σ : Type) where
  s_activeIF : Option (SensorIF_t σ)
  world : σ

/-- Result of a selector `Init`. -/
structure InitOutcome (S : Type) where
  ret : Bool
  state : S
  events : List Event

/-- Result of a selector `Read`: return value, contents of the output buffer afterwards,
state afterwards, events. -/
structure ReadOutcome (S T : Type) where
  ret : Bool
  out : Option T
  state : S
  events : List Event

/-- `SensorIF_Init`. `build` is the backend flag set in `app_config.h`; `simIF` and `hwIF`
are the pointers returned by `SensorSimTemp_GetInterface()` and
`SensorHWTemp_GetInterface()`. -/
def SensorIF_Init {σ : Type} (build : BuildChoice) (simIF hwIF : Option (SensorIF_t σ))
    (s : SensorIF_State σ) : InitOutcome (SensorIF_State σ) :=
  let s1 : SensorIF_State σ := { s with s_activeIF := build.pick simIF hwIF }
  let e0 := Event.log LogLevel.INFO (build.pick
    "SensorIF_Init: using SIMULATED sensor backend."
    "SensorIF_Init: using HARDWARE I2C sensor backend.")
  match s1.s_activeIF with
  | none =>
    ⟨false, s1, [e0, Event.log LogLevel.ERROR "SensorIF_Init: active interface is invalid."]⟩
  | some b =>
    match b.init with
    | none =>
      ⟨false, s1, [e0, Event.log LogLevel.ERROR "SensorIF_Init: active interface is invalid."]⟩
    | some f =>
      let r := f s1.world
      let s2 : SensorIF_State σ := { s1 with world := r.2 }
      if r.1 = false then
        ⟨false, s2, [e0, Event.init_call,
          Event.log LogLevel.ERROR "SensorIF_Init: backend init failed."]⟩
      else
        ⟨true, s2, [e0, Event.init_call]⟩

/-- `Sensor_GetInterface`. -/
def Sensor_GetInterface {σ : Type} (s : SensorIF_State σ) : Option (SensorIF_t σ) :=
  s.s_activeIF

/-! ## light_tsl2591.h, env_types.h -/

/-- Single ambient light sample (`TSL2591_Data_t`). -/
structure TSL2591_Data_t where
  lux : ℚ
  fullChannel : Nat
  irChannel : Nat
  timestampMs : Nat
  deriving DecidableEq

/-- Environment sample (`EnvData_t`). -/
structure EnvData_t where
  temperatureC : ℚ
  pressurePa : ℚ
  humidityRH : ℚ
  timestampMs : Nat
  deriving DecidableEq

/-! ## light_if.c -/

/-- Backend function table of the light selector (`LightBackend_t`). -/
structure LightBackend_t (σ : Type) where
  init : Option (σ → Bool × σ)
  read : Option (Option TSL2591_Data_t → σ → Bool × Option TSL2591_Data_t × σ)

/-- Statics of `light_if.c` together with the backend-side state. -/
structure LightIF_State (σ : Type) where
  s_activeBackend : Option (LightBackend_t σ)
  world : σ

/-- `LightIF_Init`. `build` is the flag pair `APP_USE_SIM_LIGHT` / `APP_USE_HW_LIGHT`;
`simBackend` and `hwBackend` are the pointers `&s_simBackend` and `&s_hwBackend`. -/
def LightIF_Init {σ : Type} (build : BuildChoice)
    (simBackend hwBackend : Option (LightBackend_t σ)) (s : LightIF_State σ) :
    InitOutcome (LightIF_State σ) :=
  let s1 : LightIF_State σ := { s with s_activeBackend := build.pick simBackend hwBackend }
  let e0 := Event.log LogLevel.INFO (build.pick
    "LightIF_Init: using SIMULATED light backend."
    "LightIF_Init: using HARDWARE TSL2591 backend.")
  match s1.s_activeBackend with
  | none =>
    ⟨false, s1, [e0, Event.log LogLevel.ERROR "LightIF_Init: active backend invalid."]⟩
  | some b =>
    match b.init with
    | none =>
      ⟨false, s1, [e0, Event.log LogLevel.ERROR "LightIF_Init: active backend invalid."]⟩
    | some f =>
      let r := f s1.world
      let s2 : LightIF_State σ := { s1 with world := r.2 }
      if r.1 = false then
        ⟨false, s2, [e0, Event.init_call,
          Event.log LogLevel.ERROR "LightIF_Init: backend init failed."]⟩
      else
        ⟨true, s2, [e0, Event.init_call]⟩

/-- `LightIF_Read`. -/
def LightIF_Read {σ : Type} (out : Option TSL2591_Data_t) (s : LightIF_State σ) :
    ReadOutcome (LightIF_State σ) TSL2591_Data_t :=
  match s.s_activeBackend with
  | none => ⟨false, out, s, [Event.log LogLevel.ERROR "LightIF_Read: backend not initialized."]⟩
  | some b =>
    match b.read with
    | none =>
      ⟨false, out, s, [Event.log LogLevel.ERROR "LightIF_Read: backend not initialized."]⟩
    | some rd =>
      let r := rd out s.world
      ⟨r.1, r.2.1, { s with world := r.2.2 }, [Event.read_call]⟩

/-! ## env_if.c -/

/-- Backend function table of the environment selector (`EnvBackend_t`). -/
structure EnvBackend_t (σ : Type) where
  init : Option (σ → Bool × σ)
  read : Option (Option EnvData_t → σ → Bool × Option EnvData_t × σ)

/-- Statics of `env_if.c` together with the backend-side state. -/
structure EnvIF_State (σ : Type) where
  s_activeBackend : Option (EnvBackend_t σ)
  world : σ

/-- `EnvIF_Init`. `build` is the flag pair `APP_USE_SIM_ENV` / `APP_USE_HW_ENV`;
`simBackend` and `hwBackend` are the pointers `&s_simBackend` and `&s_hwBackend`. -/
def EnvIF_Init {σ : Type} (build : BuildChoice)
    (simBackend hwBackend : Option (EnvBackend_t σ)) (s : EnvIF_State σ) :
    InitOutcome (EnvIF_State σ) :=
  let s1 : EnvIF_State σ := { s with s_activeBackend := build.pick simBackend hwBackend }
  let e0 := Event.log LogLevel.INFO (build.pick
    "EnvIF_Init: using SIMULATED environment backend."
    "EnvIF_Init: using BME280 SPI hardware backend.")
  match s1.s_activeBackend with
  | none =>
    ⟨false, s1, [e0, Event.log LogLevel.ERROR "EnvIF_Init: active backend invalid."]⟩
  | some b =>
    match b.init with
    | none =>
      ⟨false, s1, [e0, Event.log LogLevel.ERROR "EnvIF_Init: active backend invalid."]⟩
    | some f =>
      let r := f s1.world
      let s2 : EnvIF_State σ := { s1 with world := r.2 }
      if r.1 = false then
        ⟨false, s2, [e0, Event.init_call,
          Event.log LogLevel.ERROR "EnvIF_Init: backend init failed."]⟩
      else
        ⟨true, s2, [e0, Event.init_call]⟩

/-- `EnvIF_Read`. -/
def EnvIF_Read {σ : Type} (out : Option EnvData_t) (s : EnvIF_State σ) :
    ReadOutcome (EnvIF_State σ) EnvData_t :=
  match s.s_activeBackend with
  | none => ⟨false, out, s, [Event.log LogLevel.ERROR "EnvIF_Read: backend not initialized."]⟩
  | some b =>
    match b.read with
    | none =>
      ⟨false, out, s, [Event.log LogLevel.ERROR "EnvIF_Read: backend not initialized."]⟩
    | some rd =>
      let r := rd out s.world
      ⟨r.1, r.2.1, { s with world := r.2.2 }, [Event.read_call]⟩

/-! ## The hardware environment: I2C bus and millisecond clock

The STM32 HAL and the attached devices are outside the repository. They are modelled as
an oracle: the answer of the bus to its `n`-th transaction and the value of the clock at
its `n`-th reading are given by two functions, and the transactions issued are logged. -/

/-- Status codes of the HAL (`HAL_StatusTypeDef`). -/
inductive HAL_StatusTypeDef
  | HAL_OK
  | HAL_ERROR
  | HAL_BUSY
  | HAL_TIMEOUT
  deriving DecidableEq, Repr

/-- Answer of the bus to one memory transaction: the status the HAL reports and, for a
read, the bytes the device delivers. -/
structure I2C_Answer where
  status : HAL_StatusTypeDef
  data : List Nat
  deriving DecidableEq

/-- One memory transaction issued on I2C1. -/
inductive I2C_Op
  | mem_read (devAddress memAddress size timeout : Nat)
  | mem_write (devAddress memAddress : Nat) (data : List Nat) (timeout : Nat)
  deriving DecidableEq, Repr

/-- Whether a transaction is a register write. -/
def I2C_Op.isWrite : I2C_Op → Bool
  | I2C_Op.mem_read _ _ _ _ => false
  | I2C_Op.mem_write _ _ _ _ => true

/-- Statics of `light_sim_tsl2591.c`. -/
structure LightSimStatics where
  s_phase : ℚ
  s_phaseStep : ℚ
  s_initialized : Nat

/-- Statics of `env_sim_bim280.c`. -/
structure EnvSimStatics where
  s_phase : ℚ
  s_phaseStep : ℚ
  s_initialized : Nat

/-- Backend-side state: the environment oracle, the log of bus transactions (oldest
first), the number of clock readings so far, the statics of `light_tsl2591.c` (`s_i2c` as
"is non-null"), and the statics of the three simulators (`lightSim`, `envSim`, and
`s_simStartTime_ms` of `sensor_sim_temp.c`). -/
structure HubWorld where
  i2c_answer : Nat → I2C_Answer
  i2c_log : List I2C_Op
  clock : Nat → Nat
  clock_reads : Nat
  s_i2c : Bool
  s_it : Nat
  s_gain : Nat
  lightSim : LightSimStatics
  envSim : EnvSimStatics
  s_simStartTime_ms : Nat

/-- `HAL_I2C_Mem_Read` on `hi2c1` with 8-bit register addresses: returns the status and, when
it is `HAL_OK`, `size` bytes. -/
def HAL_I2C_Mem_Read (devAddress memAddress size timeout : Nat) (w : HubWorld) :
    HAL_StatusTypeDef × List Nat × HubWorld :=
  let a := w.i2c_answer w.i2c_log.length
  (a.status, (List.range size).map (fun i => a.data.getD i 0 % 256),
    { w with i2c_log := w.i2c_log ++ [I2C_Op.mem_read devAddress memAddress size timeout] })

/-- `HAL_I2C_Mem_Write` on `hi2c1` with 8-bit register addresses. -/
def HAL_I2C_Mem_Write (devAddress memAddress : Nat) (data : List Nat) (timeout : Nat)
    (w : HubWorld) : HAL_StatusTypeDef × HubWorld :=
  let a := w.i2c_answer w.i2c_log.length
  (a.status,
    { w with i2c_log := w.i2c_log ++ [I2C_Op.mem_write devAddress memAddress data timeout] })

/-- Modelled from the spec: `log.c` is not among the sources; `Log_GetTimestampMs` reads the
monotonic millisecond clock, a `uint32_t` that wraps. -/
def Log_GetTimestampMs (w : HubWorld) : Nat × HubWorld :=
  (w.clock w.clock_reads % 2 ^ 32, { w with clock_reads := w.clock_reads + 1 })

/-! ## light_tsl2591.c -/

/-- 8-bit I2C address of the TSL2591 (`0x29 << 1`). -/
def TSL2591_I2C_ADDR_8BIT : Nat := 0x52

/-- Command register prefix. -/
def TSL2591_CMD_NORMAL : Nat := 0xA0

/-- ENABLE register. -/
def TSL2591_REG_ENABLE : Nat := 0x00

/-- CONTROL register. -/
def TSL2591_REG_CONTROL : Nat := 0x01

/-- PERSIST register. -/
def TSL2591_REG_PERSIST : Nat := 0x0C

/-- Device ID register. -/
def TSL2591_REG_DEVICE_ID : Nat := 0x12

/-- STATUS register. -/
def TSL2591_REG_STATUS : Nat := 0x13

/-- CH0 data, low byte. -/
def TSL2591_REG_C0DATAL : Nat := 0x14

/-- CH1 data, low byte. -/
def TSL2591_REG_C1DATAL : Nat := 0x16

/-- `TSL2591_ENABLE_PON | TSL2591_ENABLE_AEN`. -/
def TSL2591_ENABLE_PON_AEN : Nat := 0x03

/-- ALS data valid bit of STATUS. -/
def TSL2591_STATUS_AVALID : Nat := 0x01

/-- Expected device ID. -/
def TSL2591_DEVICE_ID_EXPECTED : Nat := 0x50

/-- Lux divisor factor `TSL2591_LUX_DF`. -/
def TSL2591_LUX_DF : ℚ := 408

/-- `prv_write_u8`. -/
def prv_write_u8 (reg value : Nat) (w : HubWorld) : Bool × HubWorld :=
  if w.s_i2c = false then (false, w)
  else
    let addr := (TSL2591_CMD_NORMAL ||| (reg &&& 0x1F)) % 256
    let r := HAL_I2C_Mem_Write TSL2591_I2C_ADDR_8BIT addr [value % 256] 50 w
    if r.1 ≠ HAL_StatusTypeDef.HAL_OK then (false, r.2) else (true, r.2)

/-- `prv_read_u8`; `value` is the current content of the byte the (non-null) pointer
argument designates, the second component of the result its content afterwards. -/
def prv_read_u8 (reg value : Nat) (w : HubWorld) : Bool × Nat × HubWorld :=
  if w.s_i2c = false then (false, value, w)
  else
    let addr := (TSL2591_CMD_NORMAL ||| (reg &&& 0x1F)) % 256
    let r := HAL_I2C_Mem_Read TSL2591_I2C_ADDR_8BIT addr 1 50 w
    if r.1 ≠ HAL_StatusTypeDef.HAL_OK then (false, value, r.2.2)
    else (true, r.2.1.getD 0 0, r.2.2)

/-- `prv_read_u16`; `value` as in `prv_read_u8`. The word is little-endian on the bus. -/
def prv_read_u16 (regLow value : Nat) (w : HubWorld) : Bool × Nat × HubWorld :=
  if w.s_i2c = false then (false, value, w)
  else
    let addr := (TSL2591_CMD_NORMAL ||| (regLow &&& 0x1F)) % 256
    let r := HAL_I2C_Mem_Read TSL2591_I2C_ADDR_8BIT addr 2 50 w
    if r.1 ≠ HAL_StatusTypeDef.HAL_OK then (false, value, r.2.2)
    else (true, ((r.2.1.getD 1 0 <<< 8) ||| r.2.1.getD 0 0) % 65536, r.2.2)

/-- The `while` loop of `prv_wait_data_valid`, unrolled at most `fuel` times; `none` means
the loop has not left within `fuel` iterations. -/
def prv_wait_data_valid_loop (start timeoutMs : Nat) :
    Nat → Nat → HubWorld → Option (Bool × HubWorld)
  | 0, _, _ => none
  | fuel + 1, status, w =>
    let t := Log_GetTimestampMs w
    if u32_sub t.1 start < timeoutMs then
      let r := prv_read_u8 TSL2591_REG_STATUS status t.2
      if r.1 = false then some (false, r.2.2)
      else if r.2.1 &&& TSL2591_STATUS_AVALID ≠ 0 then some (true, r.2.2)
      else prv_wait_data_valid_loop start timeoutMs fuel r.2.1 r.2.2
    else some (false, t.2)

/-- `prv_wait_data_valid`. -/
def prv_wait_data_valid (fuel timeoutMs : Nat) (w : HubWorld) : Option (Bool × HubWorld) :=
  let t := Log_GetTimestampMs w
  prv_wait_data_valid_loop t.1 timeoutMs fuel 0 t.2

/-- The `switch (s_it)` of `prv_compute_lux`: integration time in ms. -/
def prv_atimeMs (s_it : Nat) : ℚ :=
  if s_it = 0 then 100
  else if s_it = 1 then 200
  else if s_it = 2 then 300
  else if s_it = 3 then 400
  else if s_it = 4 then 500
  else if s_it = 5 then 600
  else 100

/-- The `switch (s_gain)` of `prv_compute_lux`: analog gain factor. -/
def prv_again (s_gain : Nat) : ℚ :=
  if s_gain = 0 then 1
  else if s_gain = 1 then 25
  else if s_gain = 2 then 428
  else if s_gain = 3 then 9876
  else 1

/-- `prv_compute_lux`, with the statics `s_it` and `s_gain` it reads as arguments. -/
def prv_compute_lux (s_it s_gain full ir : Nat) : ℚ :=
  let atimeMs := prv_atimeMs s_it
  let again := prv_again s_gain
  let cpl := (atimeMs * again) / TSL2591_LUX_DF
  if cpl ≤ 0 then 0
  else
    let lux1 := ((full : ℚ) - (187 / 100) * (ir : ℚ)) / cpl
    let lux2 := ((63 / 100) * (full : ℚ) - (ir : ℚ)) / cpl
    let lux := if lux2 > lux1 then lux2 else lux1
    if lux < 0 then 0 else lux

/-- `TSL2591_Init`. -/
def TSL2591_Init (it gain : Nat) (w : HubWorld) : Bool × HubWorld :=
  let w0 : HubWorld := { w with s_i2c := true, s_it := it, s_gain := gain }
  let r := prv_read_u8 TSL2591_REG_DEVICE_ID 0 w0
  if r.1 = false then (false, r.2.2)
  else if r.2.1 ≠ TSL2591_DEVICE_ID_EXPECTED then (false, r.2.2)
  else
    let control := (((gain % 256) <<< 4) ||| ((it % 256) &&& 0x07)) % 256
    let c := prv_write_u8 TSL2591_REG_CONTROL control r.2.2
    if c.1 = false then (false, c.2)
    else
      let p := prv_write_u8 TSL2591_REG_PERSIST 0x01 c.2
      let e := prv_write_u8 TSL2591_REG_ENABLE TSL2591_ENABLE_PON_AEN p.2
      if e.1 = false then (false, e.2) else (true, e.2)

/-- `TSL2591_Read`; `fuel` bounds the polling loop, `none` means it has not left. -/
def TSL2591_Read (fuel : Nat) (out : Option TSL2591_Data_t) (w : HubWorld) :
    Option (Bool × Option TSL2591_Data_t × HubWorld) :=
  match out with
  | none => some (false, none, w)
  | some _ =>
    if w.s_i2c = false then some (false, out, w)
    else
      match prv_wait_data_valid fuel 1000 w with
      | none => none
      | some (false, w1) => some (false, out, w1)
      | some (true, w1) =>
        let c0 := prv_read_u16 TSL2591_REG_C0DATAL 0 w1
        if c0.1 = false then some (false, out, c0.2.2)
        else
          let c1 := prv_read_u16 TSL2591_REG_C1DATAL 0 c0.2.2
          if c1.1 = false then some (false, out, c1.2.2)
          else
            let st := prv_read_u8 TSL2591_REG_STATUS 0 c1.2.2
            let t := Log_GetTimestampMs st.2.2
            some (true,
              some { lux := prv_compute_lux st.2.2.s_it st.2.2.s_gain c0.2.1 c1.2.1,
                     fullChannel := c0.2.1, irChannel := c1.2.1, timestampMs := t.1 },
              t.2)

/-! ## sensor_hw_temp.c -/

/-- 8-bit I2C address of the temperature sensor (`0x48 << 1`). -/
def SENSOR_HW_I2C_ADDR_8BIT : Nat := 0x90

/-- Temperature register. -/
def SENSOR_HW_REG_TEMP : Nat := 0x00

/-- I2C timeout in ms. -/
def SENSOR_HW_I2C_TIMEOUT_MS : Nat := 50

/-- Conversion of a `uint16_t` value to `int16_t` (two's complement). -/
def int16_of_u16 (v : Nat) : Int :=
  if v % 65536 < 32768 then (v % 65536 : Nat) else ((v % 65536 : Nat) : Int) - 65536

/-- `SensorHWTemp_Init`. -/
def SensorHWTemp_Init (w : HubWorld) : Bool × HubWorld :=
  let r := HAL_I2C_Mem_Read SENSOR_HW_I2C_ADDR_8BIT SENSOR_HW_REG_TEMP 2
    SENSOR_HW_I2C_TIMEOUT_MS w
  if r.1 ≠ HAL_StatusTypeDef.HAL_OK then (false, r.2.2) else (true, r.2.2)

/-- `SensorHWTemp_Read`. -/
def SensorHWTemp_Read (out : Option SensorData_t) (w : HubWorld) :
    Bool × Option SensorData_t × HubWorld :=
  match out with
  | none => (false, none, w)
  | some _ =>
    let r := HAL_I2C_Mem_Read SENSOR_HW_I2C_ADDR_8BIT SENSOR_HW_REG_TEMP 2
      SENSOR_HW_I2C_TIMEOUT_MS w
    if r.1 ≠ HAL_StatusTypeDef.HAL_OK then (false, out, r.2.2)
    else
      let raw16 := ((r.2.1.getD 0 0 <<< 8) ||| r.2.1.getD 1 0) % 65536
      let raw12 := raw16 >>> 4
      let signed12 : Int :=
        if raw12 &&& 0x800 ≠ 0 then int16_of_u16 (raw12 ||| 0xF000) else int16_of_u16 raw12
      let t := Log_GetTimestampMs r.2.2
      (true, some { value := (signed12 : ℚ) * (625 / 10000), timestamp := t.1, mode := 0 }, t.2)

/-! ## Descriptors of the hardware build

The descriptors act on `Option HubWorld`: `none` stands for a run in which a polling loop
has not left within the fuel bound, after which nothing more is known. -/

/-- Lifting of a driver `init` to `Option HubWorld`. -/
def liftInit (f : HubWorld → Bool × HubWorld) (ow : Option HubWorld) :
    Bool × Option HubWorld :=
  match ow with
  | none => (false, none)
  | some w => ((f w).1, some (f w).2)

/-- Lifting of a driver `read` to `Option HubWorld`. -/
def liftRead {T : Type} (f : Option T → HubWorld → Option (Bool × Option T × HubWorld))
    (out : Option T) (ow : Option HubWorld) : Bool × Option T × Option HubWorld :=
  match ow with
  | none => (false, out, none)
  | some w =>
    match f out w with
    | none => (false, out, none)
    | some r => (r.1, r.2.1, some r.2.2)

/-- Integration time `TSL2591_IT_200MS`. -/
def TSL2591_IT_200MS : Nat := 1

/-- Gain `TSL2591_GAIN_MEDIUM`. -/
def TSL2591_GAIN_MEDIUM : Nat := 1

/-- Integration time `TSL2591_IT_100MS`. -/
def TSL2591_IT_100MS : Nat := 0

/-- Gain `TSL2591_GAIN_LOW`. -/
def TSL2591_GAIN_LOW : Nat := 0

/-- The descriptor `s_hwBackend` of `light_if.c` (`prv_hw_init`, `prv_hw_read`). -/
def LightIF_s_hwBackend (fuel : Nat) : LightBackend_t (Option HubWorld) :=
  { init := some (liftInit (TSL2591_Init TSL2591_IT_200MS TSL2591_GAIN_MEDIUM)),
    read := some (liftRead (TSL2591_Read fuel)) }

/-- The descriptor `s_hwSensorIF` of `sensor_hw_temp.c`. -/
def s_hwSensorIF : SensorIF_t (Option HubWorld) :=
  { init := some (liftInit SensorHWTemp_Init),
    read := some (liftRead (fun out w => some (SensorHWTemp_Read out w))) }

/-- `SensorHWTemp_GetInterface`. -/
def SensorHWTemp_GetInterface : Option (SensorIF_t (Option HubWorld)) :=
  some s_hwSensorIF

/-! ## The simulated backends

`sinf` of the C library is a parameter of the simulated reads. Float literals are taken at
their decimal value; `(float)M_PI`, which has no decimal value in `ℚ`, is taken at its
binary32 value. The two products from which the light simulator derives its raw counts
are rounded to binary32 (`f32_round`) before the conversion to `uint16_t`. -/

/-- `HAL_GetTick`: reads the millisecond clock, a `uint32_t` that wraps. -/
def HAL_GetTick (w : HubWorld) : Nat × HubWorld :=
  (w.clock w.clock_reads % 2 ^ 32, { w with clock_reads := w.clock_reads + 1 })

/-- The constant `(float)M_PI` of `light_sim_tsl2591.c`, which is also `ENV_SIM_PI` of
`env_sim_bim280.c`: the binary32 number nearest to pi. -/
def M_PI_F : ℚ := 13176795 / 4194304

/-- Conversion of a `float` to `uint16_t`: the fractional part is discarded. C leaves the
conversion undefined when the result is outside `0..65535`; here it is reduced modulo
`2^16`. -/
def float_to_u16 (x : ℚ) : Nat :=
  (if 0 ≤ x then ⌊x⌋ else -⌊-x⌋).toNat % 65536

/-- Rounding of a rational to the nearest integer, ties to the even one. -/
def round_half_even (q : ℚ) : Int :=
  if q - ⌊q⌋ < 1 / 2 then ⌊q⌋
  else if 1 / 2 < q - ⌊q⌋ then ⌊q⌋ + 1
  else if ⌊q⌋ % 2 = 0 then ⌊q⌋ else ⌊q⌋ + 1

/-- Spacing of the binary32 numbers around `x`: `2^(e - 23)` for `2^e <= |x| < 2^(e+1)`
(24-bit significand). The exponent range is taken as unbounded: no subnormal numbers, no
overflow. -/
def f32_ulp (x : ℚ) : ℚ :=
  (2 : ℚ) ^ (Int.log 2 |x| - 23)

/-- The binary32 result of a float operation whose exact result is `x`: the nearest
binary32 number, ties to even. -/
def f32_round (x : ℚ) : ℚ :=
  (round_half_even (x / f32_ulp x) : ℚ) * f32_ulp x

/-! ### light_sim_tsl2591.c -/

/-- `LightSim_TSL2591_Init`. -/
def LightSim_TSL2591_Init (w : HubWorld) : Bool × HubWorld :=
  (true, { w with lightSim := { s_phase := 0, s_phaseStep := 1 / 20, s_initialized := 1 } })

/-- `LightSim_TSL2591_Read`. -/
def LightSim_TSL2591_Read (sinf : ℚ → ℚ) (out : Option TSL2591_Data_t) (w : HubWorld) :
    Bool × Option TSL2591_Data_t × HubWorld :=
  match out with
  | none => (false, none, w)
  | some _ =>
    let w1 := if w.lightSim.s_initialized = 0 then (LightSim_TSL2591_Init w).2 else w
    let p1 := w1.lightSim.s_phase + w1.lightSim.s_phaseStep
    let p2 := if p1 > 2 * M_PI_F then p1 - 2 * M_PI_F else p1
    let w2 : HubWorld := { w1 with lightSim := { w1.lightSim with s_phase := p2 } }
    let baseLux0 := 450 + 440 * sinf p2
    let baseLux := if baseLux0 < 0 then 0 else baseLux0
    let full := float_to_u16 (f32_round (baseLux * 5))
    let ir := float_to_u16 (f32_round (baseLux * (3 / 2)))
    let t := Log_GetTimestampMs w2
    (true,
      some { lux := baseLux, fullChannel := full, irChannel := ir, timestampMs := t.1 },
      t.2)

/-! ### env_sim_bim280.c -/

/-- `EnvSim_Init`. -/
def EnvSim_Init (w : HubWorld) : Bool × HubWorld :=
  (true, { w with envSim := { s_phase := 0, s_phaseStep := 1 / 50, s_initialized := 1 } })

/-- `EnvSim_Read`. -/
def EnvSim_Read (sinf : ℚ → ℚ) (out : Option EnvData_t) (w : HubWorld) :
    Bool × Option EnvData_t × HubWorld :=
  match out with
  | none => (false, none, w)
  | some _ =>
    let w1 := if w.envSim.s_initialized = 0 then (EnvSim_Init w).2 else w
    let p1 := w1.envSim.s_phase + w1.envSim.s_phaseStep
    let p2 := if p1 > 2 * M_PI_F then p1 - 2 * M_PI_F else p1
    let w2 : HubWorld := { w1 with envSim := { w1.envSim with s_phase := p2 } }
    let t := Log_GetTimestampMs w2
    (true,
      some { temperatureC := 24 + 4 * sinf p2,
             pressurePa := 101325 + 800 * sinf (p2 * (1 / 2)),
             humidityRH := 52 + 12 * sinf (p2 * (8 / 10) + 1),
             timestampMs := t.1 },
      t.2)

/-! ### sensor_sim_temp.c -/

/-- `SensorSimTemp_InitImpl`. -/
def SensorSimTemp_InitImpl (w : HubWorld) : Bool × HubWorld :=
  let t := HAL_GetTick w
  (true, { t.2 with s_simStartTime_ms := t.1 })

/-- `SensorSimTemp_ReadImpl`. -/
def SensorSimTemp_ReadImpl (sinf : ℚ → ℚ) (outData : Option SensorData_t) (w : HubWorld) :
    Bool × Option SensorData_t × HubWorld :=
  match outData with
  | none => (false, none, w)
  | some _ =>
    let t := HAL_GetTick w
    let now_ms := t.1
    let elapsed_ms := u32_sub now_ms t.2.s_simStartTime_ms
    let phase := (elapsed_ms : ℚ) / 2000
    let tempC := 25 + 3 * sinf phase
    (true, some { value := tempC, timestamp := now_ms, mode := 0 }, t.2)

/-! ### Descriptors of the simulated build -/

/-- The descriptor `s_simBackend` of `light_if.c` (`prv_sim_init`, `prv_sim_read`). -/
def LightIF_s_simBackend (sinf : ℚ → ℚ) : LightBackend_t (Option HubWorld) :=
  { init := some (liftInit LightSim_TSL2591_Init),
    read := some (liftRead (fun out w => some (LightSim_TSL2591_Read sinf out w))) }

/-- The descriptor `s_simBackend` of `env_if.c` (`prv_sim_init`, `prv_sim_read`). -/
def EnvIF_s_simBackend (sinf : ℚ → ℚ) : EnvBackend_t (Option HubWorld) :=
  { init := some (liftInit EnvSim_Init),
    read := some (liftRead (fun out w => some (EnvSim_Read sinf out w))) }

/-- The descriptor `s_simTempIF` of `sensor_sim_temp.c`. -/
def s_simTempIF (sinf : ℚ → ℚ) : SensorIF_t (Option HubWorld) :=
  { init := some (liftInit SensorSimTemp_InitImpl),
    read := some (liftRead (fun out w => some (SensorSimTemp_ReadImpl sinf out w))) }

/-- `SensorSimTemp_GetInterface`. -/
def SensorSimTemp_GetInterface (sinf : ℚ → ℚ) : Option (SensorIF_t (Option HubWorld)) :=
  some (s_simTempIF sinf)

/-! ### Call sequences on a simulator -/

/-- The records written by the successful reads of a sequence of `LightSim_TSL2591_Read`
calls (one output pointer per call) that starts in `w`, in call order. -/
def LightSim_samples (sinf : ℚ → ℚ) : List (Option TSL2591_Data_t) → HubWorld →
    List TSL2591_Data_t
  | [], _ => []
  | out :: outs, w =>
    (if (LightSim_TSL2591_Read sinf out w).1 = true
      then (LightSim_TSL2591_Read sinf out w).2.1.toList else [])
    ++ LightSim_samples sinf outs (LightSim_TSL2591_Read sinf out w).2.2

/-- The records written by the successful reads of a sequence of `EnvSim_Read` calls (one
output pointer per call) that starts in `w`, in call order. -/
def EnvSim_samples (sinf : ℚ → ℚ) : List (Option EnvData_t) → HubWorld → List EnvData_t
  | [], _ => []
  | out :: outs, w =>
    (if (EnvSim_Read sinf out w).1 = true then (EnvSim_Read sinf out w).2.1.toList else [])
    ++ EnvSim_samples sinf outs (EnvSim_Read sinf out w).2.2

/-- The phase accumulator of a simulator after `n` successful reads since its `Init`, for
the phase step `step`: it starts at 0, and each read adds `step` and subtracts
`2 * M_PI_F` once when the sum exceeds it. -/
def simPhase (step : ℚ) : Nat → ℚ
  | 0 => 0
  | n + 1 =>
    if simPhase step n + step > 2 * M_PI_F then simPhase step n + step - 2 * M_PI_F
    else simPhase step n + step

/-- The measured part of a light sample (lux, full, ir). -/
def TSL2591_Data_t.measured (d : TSL2591_Data_t) : ℚ × Nat × Nat :=
  (d.lux, d.fullChannel, d.irChannel)

/-- The measured part of an environment sample (temperature, pressure, humidity). -/
def EnvData_t.measured (d : EnvData_t) : ℚ × ℚ × ℚ :=
  (d.temperatureC, d.pressurePa, d.humidityRH)

/-- The measured part of the light sample produced at phase `p`. -/
def lightSimAt (sinf : ℚ → ℚ) (p : ℚ) : ℚ × Nat × Nat :=
  let baseLux := if 450 + 440 * sinf p < 0 then 0 else 450 + 440 * sinf p
  (baseLux, float_to_u16 (f32_round (baseLux * 5)),
    float_to_u16 (f32_round (baseLux * (3 / 2))))

/-- The measured part of the environment sample produced at phase `p`. -/
def envSimAt (sinf : ℚ → ℚ) (p : ℚ) : ℚ × ℚ × ℚ :=
  (24 + 4 * sinf p, 101325 + 800 * sinf (p * (1 / 2)), 52 + 12 * sinf (p * (8 / 10) + 1))

/-- A rational stand-in for `sinf`, used to evaluate statements at concrete inputs: the
Taylor polynomial of degree 5, clamped to `[-1, 1]`. -/
def sinfModel (x : ℚ) : ℚ :=
  max (-1) (min 1 (x - x ^ 3 / 6 + x ^ 5 / 120))

/-! ## app_main.c: the power-aware sampling task -/

/-- State read and written by `App_TaskSensorSample`: its function-local static
`lastSampleTick_ms`, the sensor selector, and the mode held by the power manager. -/
structure AppState (σ : Type) where
  lastSampleTick_ms : Nat
  sensor : SensorIF_State σ
  mode : PowerMode_t

/-- Modelled from the spec: `power_manager.c` is not among the sources;
`PowerManager_GetCurrentMode` is a pure query of the current mode. -/
def PowerManager_GetCurrentMode {σ : Type} (s : AppState σ) : PowerMode_t :=
  s.mode

/-- The `switch (mode)` of `App_TaskSensorSample` (lines 246-264): the effective sampling
period of a power mode; `POWER_MODE_STOP` and `default` share one branch. -/
def sensorPeriodForMode (mode : PowerMode_t) : Nat :=
  match mode with
  | PowerMode_t.POWER_MODE_ACTIVE => SENSOR_PERIOD_ACTIVE_MS
  | PowerMode_t.POWER_MODE_IDLE => SENSOR_PERIOD_IDLE_MS
  | PowerMode_t.POWER_MODE_SLEEP => SENSOR_PERIOD_SLEEP_MS
  | PowerMode_t.POWER_MODE_STOP => SENSOR_PERIOD_STOP_MS
  | PowerMode_t.other => SENSOR_PERIOD_STOP_MS

/-- Result of one run of a task body. `fault` is set when the body called through a null
function pointer (undefined behaviour in C); the state is then the one reached at the call. -/
structure TaskOutcome (σ : Type) where
  state : AppState σ
  events : List Event
  fault : Bool

/-- `App_TaskSensorSample`. `tick` is the value `HAL_GetTick()` returns at line 243 and
`data` the indeterminate initial contents of the local `SensorData_t data`. The event
`read_call` records the execution of the call `sensorIF->read(&data)` at line 284. -/
def App_TaskSensorSample {σ : Type} (tick : Nat) (data : SensorData_t) (s : AppState σ) :
    TaskOutcome σ :=
  match Sensor_GetInterface s.sensor with
  | none => ⟨s, [Event.log LogLevel.ERROR "SensorSample: Sensor interface is NULL"], false⟩
  | some sensorIF =>
    let mode := PowerManager_GetCurrentMode s
    let now_ms := u32 tick
    let period_ms := sensorPeriodForMode mode
    if period_ms = 0 then
      ⟨s, [Event.log LogLevel.DEBUG
        "SensorSample: sampling disabled in current power mode (%d)"], false⟩
    else if u32_sub now_ms s.lastSampleTick_ms < period_ms then
      ⟨s, [], false⟩
    else
      let s1 : AppState σ := { s with lastSampleTick_ms := now_ms }
      match sensorIF.read with
      | none => ⟨s1, [Event.read_call], true⟩
      | some rd =>
        let r := rd (some data) s1.sensor.world
        let s2 : AppState σ := { s1 with sensor := { s1.sensor with world := r.2.2 } }
        if r.1 = true then
          ⟨s2, [Event.read_call, Event.log LogLevel.INFO
            "SensorSample: value=%.2f C, timestamp=%lu ms, mode=%d"], false⟩
        else
          ⟨s2, [Event.read_call, Event.log LogLevel.WARN
            "SensorSample: read failed (mode=%d)"], false⟩

/-- The due test of the sampling task as the specification words it: the interface is
non-null, the effective period `p` of the current mode is non-zero, and
`(now - lastSample) mod 2^32 >= p`. -/
def sampleDue {σ : Type} (tick : Nat) (s : AppState σ) : Prop :=
  s.sensor.s_activeIF.isSome = true ∧ sensorPeriodForMode s.mode ≠ 0 ∧
    (sensorPeriodForMode s.mode : Int) ≤ ((tick : Int) - (s.lastSampleTick_ms : Int)) % 2 ^ 32

/-- A descriptor whose `read` always fails and whose `init` always succeeds, over a
trivial backend state; used to instantiate statements at concrete inputs. -/
def failingReadIF : SensorIF_t Unit :=
  { init := some (fun w => (true, w)), read := some (fun out w => (false, out, w)) }

/-- A concrete application state: given last-sample timestamp and mode, the active
interface is `failingReadIF`. -/
def sampleState (last : Nat) (mode : PowerMode_t) : AppState Unit :=
  { lastSampleTick_ms := last, sensor := { s_activeIF := some failingReadIF, world := () },
    mode := mode }

/-- An all-zero `SensorData_t`. -/
def zeroData : SensorData_t :=
  { value := 0, timestamp := 0, mode := 0 }

/-- What a selector `Init` does with the `init` pointer of the selected descriptor
(`none` when the descriptor pointer itself is null), in terms of return value, backend
state afterwards and number of calls through the pointer: an unbound pointer gives
failure with nothing called, a bound one is called once and its result returned. -/
def initThrough {σ : Type} (initPtr : Option (σ → Bool × σ)) (w : σ) : Bool × σ × Nat :=
  match initPtr with
  | none => (false, w, 0)
  | some f => ((f w).1, (f w).2, 1)

/-- A temperature descriptor whose `init` succeeds and whose `read` is unbound. -/
def sensorNoReadIF : SensorIF_t Unit :=
  { init := some (fun w => (true, w)), read := none }

/-- A light descriptor whose `init` succeeds and whose `read` is unbound. -/
def lightNoReadBackend : LightBackend_t Unit :=
  { init := some (fun w => (true, w)), read := none }

/-- An environment descriptor whose `init` succeeds and whose `read` is unbound. -/
def envNoReadBackend : EnvBackend_t Unit :=
  { init := some (fun w => (true, w)), read := none }

/-- Statics at program start over a given environment: in `light_tsl2591.c` `s_i2c` null,
`s_it = TSL2591_IT_200MS`, `s_gain = TSL2591_GAIN_MEDIUM`; in the simulators phase 0, step
0.05 (light) and 0.02 (environment), not initialised, start time 0; nothing issued on the
bus, clock not yet read. -/
def HubWorld.atReset (i2c_answer : Nat → I2C_Answer) (clock : Nat → Nat) : HubWorld :=
  { i2c_answer := i2c_answer, i2c_log := [], clock := clock, clock_reads := 0,
    s_i2c := false, s_it := TSL2591_IT_200MS, s_gain := TSL2591_GAIN_MEDIUM,
    lightSim := { s_phase := 0, s_phaseStep := 1 / 20, s_initialized := 0 },
    envSim := { s_phase := 0, s_phaseStep := 1 / 50, s_initialized := 0 },
    s_simStartTime_ms := 0 }

/-- An environment in which no device acknowledges: every transaction reports `HAL_ERROR`.
The clock advances by one per reading. -/
def deadBusWorld : HubWorld :=
  HubWorld.atReset (fun _ => ⟨HAL_StatusTypeDef.HAL_ERROR, []⟩) (fun n => n)

/-- An environment with a foreign device at the TSL2591 address: the ID register reads
`0x51`; afterwards STATUS reads `0x01` (data valid), CH0 reads 1000 and CH1 reads 200.
The clock advances by one per reading. -/
def foreignDeviceWorld : HubWorld :=
  HubWorld.atReset
    (fun n => [⟨HAL_StatusTypeDef.HAL_OK, [0x51]⟩, ⟨HAL_StatusTypeDef.HAL_OK, [0x01]⟩,
      ⟨HAL_StatusTypeDef.HAL_OK, [0xE8, 0x03]⟩, ⟨HAL_StatusTypeDef.HAL_OK, [0xC8, 0x00]⟩,
      ⟨HAL_StatusTypeDef.HAL_OK, [0x01]⟩].getD n ⟨HAL_StatusTypeDef.HAL_ERROR, []⟩)
    (fun n => n)

/-- An all-zero `TSL2591_Data_t`. -/
def zeroLight : TSL2591_Data_t :=
  { lux := 0, fullChannel := 0, irChannel := 0, timestampMs := 0 }

/-- A world at reset in which no device acknowledges on the bus, with the given clock. -/
def clockWorld (clock : Nat → Nat) : HubWorld :=
  HubWorld.atReset (fun _ => ⟨HAL_StatusTypeDef.HAL_ERROR, []⟩) clock

/-- A world at reset in which the temperature sensor answers every read with the two
bytes `rx0`, `rx1`. The clock advances by one per reading. -/
def tempSensorWorld (rx0 rx1 : Nat) : HubWorld :=
  HubWorld.atReset (fun _ => ⟨HAL_StatusTypeDef.HAL_OK, [rx0, rx1]⟩) (fun n => n)

/-- An all-zero `EnvData_t`. -/
def zeroEnv : EnvData_t :=
  { temperatureC := 0, pressurePa := 0, humidityRH := 0, timestampMs := 0 }

/-- The 12-bit reading of the temperature sensor as the specification words it:
`floor(int16(rx0<<8 | rx1) / 16)`. -/
def signed12_spec (rx0 rx1 : Nat) : Int :=
  ⌊((int16_of_u16 (rx0 * 256 + rx1) : Int) : ℚ) / 16⌋

/-! ## app_main.c: startup -/

/-- The task bodies of `app_main.c`, as values of the `function` field of a task
descriptor: `App_TaskHeartbeat`, `App_TaskSensorSample`, `App_TaskPowerManager`,
`App_TaskCli`, `App_TaskLightSample`, `App_TaskEnvSample`. -/
inductive AppTaskFunction
  | Heartbeat
  | SensorSample
  | PowerManager
  | Cli
  | LightSample
  | EnvSample
  deriving DecidableEq, Repr

/-- Modelled from the spec: `app_task_manager.h` is not among the sources. A task
descriptor is `name, entry point, period, last-run timestamp`, with the field names the
initialisers of `app_main.c` use. -/
structure AppTaskDescriptor_t where
  name : String
  function : AppTaskFunction
  period_ms : Nat
  lastRun_ms : Nat
  deriving DecidableEq, Repr

/-- Descriptor of the heartbeat task. -/
def s_heartbeatTask : AppTaskDescriptor_t :=
  { name := "Heartbeat", function := AppTaskFunction.Heartbeat, period_ms := 500,
    lastRun_ms := 0 }

/-- Descriptor of the sensor sampling task. -/
def s_sensorTask : AppTaskDescriptor_t :=
  { name := "SensorSample", function := AppTaskFunction.SensorSample, period_ms := 1000,
    lastRun_ms := 0 }

/-- Descriptor of the power manager task. -/
def s_powerTask : AppTaskDescriptor_t :=
  { name := "PowerManager", function := AppTaskFunction.PowerManager, period_ms := 500,
    lastRun_ms := 0 }

/-- Descriptor of the CLI task. -/
def s_cliTask : AppTaskDescriptor_t :=
  { name := "CLI", function := AppTaskFunction.Cli, period_ms := 20, lastRun_ms := 0 }

/-- Descriptor of the light sampling task. -/
def s_lightTask : AppTaskDescriptor_t :=
  { name := "LightSample", function := AppTaskFunction.LightSample, period_ms := 1000,
    lastRun_ms := 0 }

/-- Descriptor of the environment sampling task. -/
def s_envTask : AppTaskDescriptor_t :=
  { name := "EnvSample", function := AppTaskFunction.EnvSample, period_ms := 2000,
    lastRun_ms := 0 }

/-- What `App_MainInit` does, in program order: the messages it logs and the calls it
makes. A call is recorded without its result. -/
inductive AppCall
  | log (level : LogLevel) (msg : String)
  | AppTaskManager_Init
  | PowerManager_Init
  | SensorIF_Init
  | LightIF_Init
  | EnvIF_Init
  | AppTaskManager_RegisterTask (task : AppTaskDescriptor_t)
  deriving DecidableEq, Repr

/-- The functions `App_MainInit` calls, acting on the state `α` of the rest of the program.
The task manager and the power manager are not among the sources; the three selector
`Init` may be any functions, so that every combination of their results is covered. The
result of `AppTaskManager_RegisterTask` is its success indicator. -/
structure AppCollaborators (α : Type) where
  AppTaskManager_Init : α → α
  PowerManager_Init : α → α
  SensorIF_Init : α → Bool × α
  LightIF_Init : α → Bool × α
  EnvIF_Init : α → Bool × α
  AppTaskManager_RegisterTask : AppTaskDescriptor_t → α → Bool × α

/-- `App_MainInit`: the state afterwards and what it did. -/
def App_MainInit {α : Type} (c : AppCollaborators α) (s : α) : α × List AppCall :=
  let s1 := c.AppTaskManager_Init s
  let s2 := c.PowerManager_Init s1
  let r3 := c.SensorIF_Init s2
  let l3 :=
    if r3.1 = false then AppCall.log LogLevel.ERROR "App_MainInit: SensorIF_Init() failed"
    else AppCall.log LogLevel.INFO "App_MainInit: sensor interface initialized successfully"
  let r4 := c.LightIF_Init r3.2
  let l4 :=
    if r4.1 = false then AppCall.log LogLevel.ERROR "App_MainInit: LightIF_Init() failed"
    else AppCall.log LogLevel.INFO "App_MainInit: light interface initialized successfully"
  let r5 := c.EnvIF_Init r4.2
  let l5 :=
    if r5.1 = false then AppCall.log LogLevel.ERROR "App_MainInit: EnvIF_Init failed."
    else AppCall.log LogLevel.INFO "App_MainInit: EnvIF initialized."
  let g1 := c.AppTaskManager_RegisterTask s_heartbeatTask r5.2
  let g2 := c.AppTaskManager_RegisterTask s_sensorTask g1.2
  let g3 := c.AppTaskManager_RegisterTask s_powerTask g2.2
  let g4 := c.AppTaskManager_RegisterTask s_cliTask g3.2
  let g5 := c.AppTaskManager_RegisterTask s_lightTask g4.2
  let g6 := c.AppTaskManager_RegisterTask s_envTask g5.2
  (g6.2,
    [AppCall.log LogLevel.INFO "Application initialization started",
     AppCall.AppTaskManager_Init, AppCall.PowerManager_Init,
     AppCall.SensorIF_Init, l3, AppCall.LightIF_Init, l4, AppCall.EnvIF_Init, l5,
     AppCall.AppTaskManager_RegisterTask s_heartbeatTask,
     AppCall.AppTaskManager_RegisterTask s_sensorTask,
     AppCall.AppTaskManager_RegisterTask s_powerTask,
     AppCall.AppTaskManager_RegisterTask s_cliTask,
     AppCall.AppTaskManager_RegisterTask s_lightTask,
     AppCall.AppTaskManager_RegisterTask s_envTask,
     AppCall.log LogLevel.INFO "Application initialization completed"])

/-- The descriptors registered in a call list, in order. -/
def registeredTasks : List AppCall → List AppTaskDescriptor_t
  | [] => []
  | AppCall.AppTaskManager_RegisterTask t :: cs => t :: registeredTasks cs
  | _ :: cs => registeredTasks cs

/-- A call list without its log messages and without the three selector `Init` calls. -/
def managerCalls (cs : List AppCall) : List AppCall :=
  cs.filter (fun c =>
    match c with
    | AppCall.log _ _ => false
    | AppCall.SensorIF_Init => false
    | AppCall.LightIF_Init => false
    | AppCall.EnvIF_Init => false
    | _ => true)

/-- The message `App_MainInit` logs after a selector `Init`, by result: an error on
failure, an information on success. -/
def initMessage (failed okMsg : String) (result : Bool) : AppCall :=
  if result = false then AppCall.log LogLevel.ERROR failed
  else AppCall.log LogLevel.INFO okMsg

/-- What `App_MainInit` does, as a function of the results of the three selector `Init`
alone. -/
def startupCalls (sensorOk lightOk envOk : Bool) : List AppCall :=
  [AppCall.log LogLevel.INFO "Application initialization started",
   AppCall.AppTaskManager_Init, AppCall.PowerManager_Init,
   AppCall.SensorIF_Init,
   initMessage "App_MainInit: SensorIF_Init() failed"
     "App_MainInit: sensor interface initialized successfully" sensorOk,
   AppCall.LightIF_Init,
   initMessage "App_MainInit: LightIF_Init() failed"
     "App_MainInit: light interface initialized successfully" lightOk,
   AppCall.EnvIF_Init,
   initMessage "App_MainInit: EnvIF_Init failed." "App_MainInit: EnvIF initialized." envOk,
   AppCall.AppTaskManager_RegisterTask s_heartbeatTask,
   AppCall.AppTaskManager_RegisterTask s_sensorTask,
   AppCall.AppTaskManager_RegisterTask s_powerTask,
   AppCall.AppTaskManager_RegisterTask s_cliTask,
   AppCall.AppTaskManager_RegisterTask s_lightTask,
   AppCall.AppTaskManager_RegisterTask s_envTask,
   AppCall.log LogLevel.INFO "Application initialization completed"]

/-- Modelled from the spec: `app_task_manager.c` is not among the sources. The task table
has a fixed capacity; `Init` empties it. -/
structure TaskTable where
  capacity : Nat
  tasks : List AppTaskDescriptor_t
  deriving DecidableEq, Repr

/-- Modelled from the spec: `AppTaskManager_Init` of the missing `app_task_manager.c`
resets the descriptor table to empty. -/
def TaskTable.init (t : TaskTable) : TaskTable :=
  { t with tasks := [] }

/-- Modelled from the spec: `AppTaskManager_RegisterTask` of the missing
`app_task_manager.c` appends a descriptor to the table and fails, leaving the table
unchanged, when the table is full. -/
def TaskTable.registerTask (d : AppTaskDescriptor_t) (t : TaskTable) : Bool × TaskTable :=
  if t.tasks.length < t.capacity then (true, { t with tasks := t.tasks ++ [d] })
  else (false, t)

/-- Collaborators over a task table: the spec-modelled task manager, and selector `Init`
functions that return the given results. -/
def tableCollaborators (sensorOk lightOk envOk : Bool) : AppCollaborators TaskTable :=
  { AppTaskManager_Init := TaskTable.init,
    PowerManager_Init := fun t => t,
    SensorIF_Init := fun t => (sensorOk, t),
    LightIF_Init := fun t => (lightOk, t),
    EnvIF_Init := fun t => (envOk, t),
    AppTaskManager_RegisterTask := TaskTable.registerTask }

/-- The state after `TSL2591_Init` was called on `deadBusWorld`: the ID read failed, and
`s_i2c` is set. -/
def deadBusAfterInit : HubWorld :=
  (TSL2591_Init TSL2591_IT_200MS TSL2591_GAIN_MEDIUM deadBusWorld).2

/-! ## app_main.c: the light and environment sampling tasks -/

/-- What a sampling task body does, in program order: the messages it logs and the
calls it makes to the power manager and to a selector. -/
inductive TaskCall
  | log (level : LogLevel) (msg : String)
  | PowerManager_GetCurrentMode
  | LightIF_Read
  | EnvIF_Read
  deriving DecidableEq, Repr

/-- State around a sampling task: the state `S` of its selector (statics and backend-side
state) and the mode held by the power manager. -/
structure SamplerState (S : Type) where
  selector : S
  mode : PowerMode_t

/-- Result of one run of a sampling task: the state afterwards, what the task did, and
the events of the selector call it made. -/
structure SamplerOutcome (S : Type) where
  state : SamplerState S
  calls : List TaskCall
  events : List Event

/-- `App_TaskLightSample`; `data` is the indeterminate initial content of the local
`TSL2591_Data_t data`. -/
def App_TaskLightSample {σ : Type} (data : TSL2591_Data_t)
    (s : SamplerState (LightIF_State σ)) : SamplerOutcome (LightIF_State σ) :=
  let r := LightIF_Read (some data) s.selector
  if r.ret = true then
    ⟨{ s with selector := r.state },
      [TaskCall.LightIF_Read,
       TaskCall.log LogLevel.INFO "LightSample: lux=%.2f, full=%u, ir=%u, t=%lu ms"],
      r.events⟩
  else
    ⟨{ s with selector := r.state },
      [TaskCall.LightIF_Read, TaskCall.log LogLevel.WARN "LightSample: read failed."],
      r.events⟩

/-- `App_TaskEnvSample`; `env` is the indeterminate initial content of the local
`EnvData_t env`. -/
def App_TaskEnvSample {σ : Type} (env : EnvData_t)
    (s : SamplerState (EnvIF_State σ)) : SamplerOutcome (EnvIF_State σ) :=
  let r := EnvIF_Read (some env) s.selector
  if r.ret = true then
    ⟨{ s with selector := r.state },
      [TaskCall.EnvIF_Read,
       TaskCall.log LogLevel.INFO "EnvSample: T=%.2f C, P=%.2f Pa, H=%.2f %%RH, t=%lu ms"],
      r.events⟩
  else
    ⟨{ s with selector := r.state },
      [TaskCall.EnvIF_Read, TaskCall.log LogLevel.WARN "EnvSample: read failed."],
      r.events⟩

/-! ## Runs of the temperature sampling task -/

/-- A descriptor over a backend state that counts the applications of `read`: each
successful read writes a sample stamped with the count and adds one to it. -/
def countingIF : SensorIF_t Nat :=
  { init := some (fun w => (true, w)),
    read := some (fun out w =>
      match out with
      | none => (false, none, w)
      | some _ => (true, some { value := 25, timestamp := w, mode := 0 }, w + 1)) }

/-- A concrete application state over the counting backend, with count 0. -/
def countingState (last : Nat) (mode : PowerMode_t) : AppState Nat :=
  { lastSampleTick_ms := last, sensor := { s_activeIF := some countingIF, world := 0 },
    mode := mode }

theorem u32_sub_eq_emod (a b : Nat) :
    ((u32_sub a b : Nat) : Int) = ((a : Int) - (b : Int)) % 2 ^ 32 := by
  unfold u32_sub
  omega

theorem u32_sub_u32_left (a b : Nat) : u32_sub (u32 a) b = u32_sub a b := by
  unfold u32_sub u32
  omega

theorem u32_sub_add_mod (L d : Nat) (hd : d < 2 ^ 32) :
    u32_sub ((L + d) % 2 ^ 32) L = d := by
  unfold u32_sub
  omega

/-! ## Lemmas on the sampling task -/

theorem sampleDue_iff {σ : Type} (tick : Nat) (s : AppState σ) :
    sampleDue tick s ↔ (s.sensor.s_activeIF.isSome = true ∧ sensorPeriodForMode s.mode ≠ 0 ∧
      sensorPeriodForMode s.mode ≤ u32_sub (u32 tick) s.lastSampleTick_ms) := by
  unfold sampleDue
  rw [u32_sub_u32_left]
  have h := u32_sub_eq_emod tick s.lastSampleTick_ms
  constructor
  · rintro ⟨h1, h2, h3⟩
    refine ⟨h1, h2, ?_⟩
    rw [← h] at h3
    exact_mod_cast h3
  · rintro ⟨h1, h2, h3⟩
    refine ⟨h1, h2, ?_⟩
    rw [← h]
    exact_mod_cast h3

/-- When the due test holds the task stores the tick and executes the read call once. -/
theorem App_TaskSensorSample_of_due {σ : Type} (tick : Nat) (data : SensorData_t)
    (s : AppState σ) (h : sampleDue tick s) :
    readCalls (App_TaskSensorSample tick data s).events = 1 ∧
    (App_TaskSensorSample tick data s).state.lastSampleTick_ms = u32 tick := by
  obtain ⟨h1, h2, h3⟩ := (sampleDue_iff tick s).mp h
  unfold App_TaskSensorSample Sensor_GetInterface PowerManager_GetCurrentMode
  cases hi : s.sensor.s_activeIF with
  | none => simp [hi] at h1
  | some b =>
    have h4 : ¬ u32_sub (u32 tick) s.lastSampleTick_ms < sensorPeriodForMode s.mode := by
      omega
    cases hr : b.read with
    | none => simp [h2, h4, hr, readCalls]
    | some rd =>
      by_cases hok : (rd (some data) s.sensor.world).1 = true
      · simp [h2, h4, hr, hok, readCalls]
      · simp [h2, h4, hr, hok, readCalls]

/-- When the due test fails the task reads nothing and leaves the state alone. -/
theorem App_TaskSensorSample_of_not_due {σ : Type} (tick : Nat) (data : SensorData_t)
    (s : AppState σ) (h : ¬ sampleDue tick s) :
    readCalls (App_TaskSensorSample tick data s).events = 0 ∧
    (App_TaskSensorSample tick data s).state = s := by
  rw [sampleDue_iff] at h
  unfold App_TaskSensorSample Sensor_GetInterface PowerManager_GetCurrentMode
  cases hi : s.sensor.s_activeIF with
  | none => simp [readCalls]
  | some b =>
    by_cases hz : sensorPeriodForMode s.mode = 0
    · simp [hz, readCalls]
    · have h4 : u32_sub (u32 tick) s.lastSampleTick_ms < sensorPeriodForMode s.mode := by
        by_contra hc
        exact h ⟨by simp [hi], hz, by omega⟩
      simp [hz, h4, readCalls]

/-- When the due test holds and the descriptor binds `read`, the task applies that read
once to the backend state, stores the tick and logs by the result. -/
theorem App_TaskSensorSample_of_due_bound {σ : Type} (tick : Nat) (data : SensorData_t)
    (s : AppState σ) (b : SensorIF_t σ)
    (rd : Option SensorData_t → σ → Bool × Option SensorData_t × σ)
    (h : sampleDue tick s) (hb : s.sensor.s_activeIF = some b) (hr : b.read = some rd) :
    (App_TaskSensorSample tick data s).state.sensor.world
      = (rd (some data) s.sensor.world).2.2 ∧
    (App_TaskSensorSample tick data s).state.lastSampleTick_ms = u32 tick ∧
    (App_TaskSensorSample tick data s).state.sensor.s_activeIF = some b ∧
    (App_TaskSensorSample tick data s).state.mode = s.mode ∧
    (App_TaskSensorSample tick data s).fault = false ∧
    (App_TaskSensorSample tick data s).events
      = [Event.read_call,
         if (rd (some data) s.sensor.world).1 = true
         then Event.log LogLevel.INFO "SensorSample: value=%.2f C, timestamp=%lu ms, mode=%d"
         else Event.log LogLevel.WARN "SensorSample: read failed (mode=%d)"] := by
  obtain ⟨_, h2, h3⟩ := (sampleDue_iff tick s).mp h
  have h4 : ¬ u32_sub (u32 tick) s.lastSampleTick_ms < sensorPeriodForMode s.mode := by
    omega
  unfold App_TaskSensorSample Sensor_GetInterface PowerManager_GetCurrentMode
  by_cases hok : (rd (some data) s.sensor.world).1 = true
  · simp [hb, hr, h2, h4, hok]
  · simp [hb, hr, h2, h4, hok]

/-- When the due test holds and the `read` pointer of the descriptor is null, the call
through it faults: no backend function runs, the backend state is as it was. -/
theorem App_TaskSensorSample_of_due_null {σ : Type} (tick : Nat) (data : SensorData_t)
    (s : AppState σ) (b : SensorIF_t σ)
    (h : sampleDue tick s) (hb : s.sensor.s_activeIF = some b) (hr : b.read = none) :
    (App_TaskSensorSample tick data s).fault = true ∧
    (App_TaskSensorSample tick data s).state.sensor = s.sensor := by
  obtain ⟨_, h2, h3⟩ := (sampleDue_iff tick s).mp h
  have h4 : ¬ u32_sub (u32 tick) s.lastSampleTick_ms < sensorPeriodForMode s.mode := by
    omega
  unfold App_TaskSensorSample Sensor_GetInterface PowerManager_GetCurrentMode
  simp [hb, hr, h2, h4]

/-- When the due test fails the task does not fault. -/
theorem App_TaskSensorSample_not_due_no_fault {σ : Type} (tick : Nat) (data : SensorData_t)
    (s : AppState σ) (h : ¬ sampleDue tick s) :
    (App_TaskSensorSample tick data s).fault = false := by
  rw [sampleDue_iff] at h
  unfold App_TaskSensorSample Sensor_GetInterface PowerManager_GetCurrentMode
  cases hi : s.sensor.s_activeIF with
  | none => simp
  | some b =>
    by_cases hz : sensorPeriodForMode s.mode = 0
    · simp [hz]
    · have h4 : u32_sub (u32 tick) s.lastSampleTick_ms < sensorPeriodForMode s.mode := by
        by_contra hc
        exact h ⟨by simp [hi], hz, by omega⟩
      simp [hz, h4]

/-- With the interface bound and a non-zero period, a task run before the period has
elapsed returns at the due test: nothing is logged. -/
theorem App_TaskSensorSample_early_events {σ : Type} (tick : Nat) (data : SensorData_t)
    (s : AppState σ) (hi : s.sensor.s_activeIF.isSome = true)
    (hp : sensorPeriodForMode s.mode ≠ 0)
    (h4 : u32_sub (u32 tick) s.lastSampleTick_ms < sensorPeriodForMode s.mode) :
    (App_TaskSensorSample tick data s).events = [] := by
  unfold App_TaskSensorSample Sensor_GetInterface PowerManager_GetCurrentMode
  cases hb : s.sensor.s_activeIF with
  | none => simp [hb] at hi
  | some b => simp [hp, h4]

/-! ## Lemmas on the lux computation -/

theorem prv_atimeMs_pos (s_it : Nat) : 0 < prv_atimeMs s_it := by
  unfold prv_atimeMs
  split_ifs <;> norm_num

theorem prv_again_pos (s_gain : Nat) : 0 < prv_again s_gain := by
  unfold prv_again
  split_ifs <;> norm_num

theorem prv_cpl_pos (s_it s_gain : Nat) :
    0 < (prv_atimeMs s_it * prv_again s_gain) / TSL2591_LUX_DF := by
  have h1 := prv_atimeMs_pos s_it
  have h2 := prv_again_pos s_gain
  unfold TSL2591_LUX_DF
  positivity

/-! ## Lemmas on the selectors -/

/-- After an `Init` that failed because the backend `init` reported failure, the light
selector still forwards `Read` to the backend `read`. -/
theorem LightIF_Read_forwards_after_failed_Init {σ : Type} (build : BuildChoice)
    (sL hL : Option (LightBackend_t σ)) (b : LightBackend_t σ) (f : σ → Bool × σ)
    (rd : Option TSL2591_Data_t → σ → Bool × Option TSL2591_Data_t × σ)
    (a0 : Option (LightBackend_t σ)) (w : σ) (out : Option TSL2591_Data_t)
    (hsel : build.pick sL hL = some b) (hinit : b.init = some f) (hread : b.read = some rd)
    (hfail : (f w).1 = false) :
    (LightIF_Init build sL hL ⟨a0, w⟩).ret = false ∧
    (LightIF_Read out (LightIF_Init build sL hL ⟨a0, w⟩).state).ret = (rd out (f w).2).1 ∧
    (LightIF_Read out (LightIF_Init build sL hL ⟨a0, w⟩).state).out = (rd out (f w).2).2.1 ∧
    readCalls (LightIF_Read out (LightIF_Init build sL hL ⟨a0, w⟩).state).events = 1 := by
  simp [LightIF_Init, LightIF_Read, hsel, hinit, hread, hfail, readCalls]

/-- After an `Init` that failed because the backend `init` reported failure, the
environment selector still forwards `Read` to the backend `read`. -/
theorem EnvIF_Read_forwards_after_failed_Init {σ : Type} (build : BuildChoice)
    (sE hE : Option (EnvBackend_t σ)) (b : EnvBackend_t σ) (f : σ → Bool × σ)
    (rd : Option EnvData_t → σ → Bool × Option EnvData_t × σ)
    (a0 : Option (EnvBackend_t σ)) (w : σ) (out : Option EnvData_t)
    (hsel : build.pick sE hE = some b) (hinit : b.init = some f) (hread : b.read = some rd)
    (hfail : (f w).1 = false) :
    (EnvIF_Init build sE hE ⟨a0, w⟩).ret = false ∧
    (EnvIF_Read out (EnvIF_Init build sE hE ⟨a0, w⟩).state).ret = (rd out (f w).2).1 ∧
    (EnvIF_Read out (EnvIF_Init build sE hE ⟨a0, w⟩).state).out = (rd out (f w).2).2.1 ∧
    readCalls (EnvIF_Read out (EnvIF_Init build sE hE ⟨a0, w⟩).state).events = 1 := by
  simp [EnvIF_Init, EnvIF_Read, hsel, hinit, hread, hfail, readCalls]

/-! ## Theorems -/

/-- C5: the mode-to-period lookup of `App_TaskSensorSample` is a fixed total function:
ACTIVE maps to 1000 ms, IDLE to 5000 ms, SLEEP to 30000 ms, STOP to 0, and a mode value
outside the four enumerators to 0 as well. -/
theorem sensorPeriodForMode_table :
    sensorPeriodForMode PowerMode_t.POWER_MODE_ACTIVE = 1000 ∧
    sensorPeriodForMode PowerMode_t.POWER_MODE_IDLE = 5000 ∧
    sensorPeriodForMode PowerMode_t.POWER_MODE_SLEEP = 30000 ∧
    sensorPeriodForMode PowerMode_t.POWER_MODE_STOP = 0 ∧
    sensorPeriodForMode PowerMode_t.other = 0 ∧
    (∀ m, m ≠ PowerMode_t.POWER_MODE_ACTIVE → m ≠ PowerMode_t.POWER_MODE_IDLE →
      m ≠ PowerMode_t.POWER_MODE_SLEEP → sensorPeriodForMode m = 0) := by
  refine ⟨rfl, rfl, rfl, rfl, rfl, ?_⟩
  intro m h1 h2 h3
  cases m <;> first | rfl | contradiction

/-- C1: when the power mode maps to effective period 0 (`POWER_MODE_STOP`, or a value
outside the four enumerators), `App_TaskSensorSample` performs no backend read and leaves
the private last-sample timestamp (indeed the whole state) unchanged, for every
timestamp and every tick. -/
theorem App_TaskSensorSample_disabled_mode {σ : Type} (tick : Nat) (data : SensorData_t)
    (s : AppState σ)
    (hp : s.mode = PowerMode_t.POWER_MODE_STOP ∨ s.mode = PowerMode_t.other ∨
      sensorPeriodForMode s.mode = 0) :
    readCalls (App_TaskSensorSample tick data s).events = 0 ∧
    (App_TaskSensorSample tick data s).state.lastSampleTick_ms = s.lastSampleTick_ms ∧
    (App_TaskSensorSample tick data s).state = s ∧
    (App_TaskSensorSample tick data s).fault = false := by
  have hz : sensorPeriodForMode s.mode = 0 := by
    rcases hp with h | h | h
    · rw [h]; rfl
    · rw [h]; rfl
    · exact h
  unfold App_TaskSensorSample Sensor_GetInterface PowerManager_GetCurrentMode
  cases hi : s.sensor.s_activeIF with
  | none => simp [readCalls]
  | some b => simp [hz, readCalls]

/-- Witness of C1: STOP mode, interface bound, last sample at 0, tick 5000. -/
theorem App_TaskSensorSample_disabled_mode_witness :
    readCalls (App_TaskSensorSample 5000 zeroData
      (sampleState 0 PowerMode_t.POWER_MODE_STOP)).events = 0 ∧
    (App_TaskSensorSample 5000 zeroData
      (sampleState 0 PowerMode_t.POWER_MODE_STOP)).state.lastSampleTick_ms = 0 ∧
    (App_TaskSensorSample 5000 zeroData (sampleState 0 PowerMode_t.POWER_MODE_STOP)).state
      = sampleState 0 PowerMode_t.POWER_MODE_STOP ∧
    (App_TaskSensorSample 5000 zeroData
      (sampleState 0 PowerMode_t.POWER_MODE_STOP)).fault = false :=
  App_TaskSensorSample_disabled_mode 5000 zeroData (sampleState 0 PowerMode_t.POWER_MODE_STOP)
    (Or.inl rfl)

/-- C2: for every state, `App_TaskSensorSample` calls the active backend's read if and
only if the sensor interface is non-null, the effective period `p` of the current power
mode is non-zero and `(now - lastSample) mod 2^32 >= p`; when it calls read it does so
exactly once, and in every other case the private last-sample timestamp is unchanged.
The call is the application of the descriptor's `read` to the backend state: when the
test holds the backend state afterwards is the one that read returns, the tick is
stored and the message logged follows the result of the read; when it does not hold the
whole state, backend state included, is as it was. (With a null `read` pointer, which no
descriptor of the repository has, the call statement is executed and faults.) -/
theorem App_TaskSensorSample_read_iff_due {σ : Type} (tick : Nat) (data : SensorData_t)
    (s : AppState σ) :
    (0 < readCalls (App_TaskSensorSample tick data s).events ↔ sampleDue tick s) ∧
    (0 < readCalls (App_TaskSensorSample tick data s).events ↔
      readCalls (App_TaskSensorSample tick data s).events = 1) ∧
    (¬ sampleDue tick s →
      (App_TaskSensorSample tick data s).state.lastSampleTick_ms = s.lastSampleTick_ms) ∧
    (¬ sampleDue tick s →
      (App_TaskSensorSample tick data s).state = s ∧
      (App_TaskSensorSample tick data s).fault = false) ∧
    (∀ (b : SensorIF_t σ) (rd : Option SensorData_t → σ → Bool × Option SensorData_t × σ),
      s.sensor.s_activeIF = some b → b.read = some rd → sampleDue tick s →
      (App_TaskSensorSample tick data s).state.sensor.world
        = (rd (some data) s.sensor.world).2.2 ∧
      (App_TaskSensorSample tick data s).state.lastSampleTick_ms = tick % 2 ^ 32 ∧
      (App_TaskSensorSample tick data s).state.sensor.s_activeIF = some b ∧
      (App_TaskSensorSample tick data s).state.mode = s.mode ∧
      (App_TaskSensorSample tick data s).fault = false ∧
      (App_TaskSensorSample tick data s).events
        = [Event.read_call,
           if (rd (some data) s.sensor.world).1 = true
           then Event.log LogLevel.INFO
             "SensorSample: value=%.2f C, timestamp=%lu ms, mode=%d"
           else Event.log LogLevel.WARN "SensorSample: read failed (mode=%d)"]) ∧
    (∀ (b : SensorIF_t σ), s.sensor.s_activeIF = some b → b.read = none →
      sampleDue tick s →
      (App_TaskSensorSample tick data s).fault = true ∧
      (App_TaskSensorSample tick data s).state.sensor = s.sensor) ∧
    ((0 < readCalls (App_TaskSensorSample tick data s).events ∧
        (App_TaskSensorSample tick data s).fault = false) ↔
      (sampleDue tick s ∧ ∃ b rd, s.sensor.s_activeIF = some b ∧ b.read = some rd)) := by
  have hbound := App_TaskSensorSample_of_due_bound tick data s
  have hnull := App_TaskSensorSample_of_due_null tick data s
  refine ⟨?_, ?_, ?_, ?_, fun b rd hb hr h => hbound b rd h hb hr,
    fun b hb hr h => hnull b h hb hr, ?_⟩
  · by_cases h : sampleDue tick s
    · simp [(App_TaskSensorSample_of_due tick data s h).1, h]
    · simp [(App_TaskSensorSample_of_not_due tick data s h).1, h]
  · by_cases h : sampleDue tick s
    · simp [(App_TaskSensorSample_of_due tick data s h).1]
    · simp [(App_TaskSensorSample_of_not_due tick data s h).1]
  · intro h
    rw [(App_TaskSensorSample_of_not_due tick data s h).2]
  · intro h
    exact ⟨(App_TaskSensorSample_of_not_due tick data s h).2,
      App_TaskSensorSample_not_due_no_fault tick data s h⟩
  · constructor
    · rintro ⟨hr, hf⟩
      have hdue : sampleDue tick s := by
        by_contra hn
        have := (App_TaskSensorSample_of_not_due tick data s hn).1
        omega
      refine ⟨hdue, ?_⟩
      cases hb : s.sensor.s_activeIF with
      | none =>
        have := hdue.1
        simp [hb] at this
      | some b =>
        cases hrd : b.read with
        | none =>
          have := (hnull b hdue hb hrd).1
          rw [this] at hf
          exact absurd hf (by decide)
        | some rd => exact ⟨b, rd, rfl, hrd⟩
    · rintro ⟨hdue, b, rd, hb, hrd⟩
      refine ⟨?_, (hbound b rd hdue hb hrd).2.2.2.2.1⟩
      rw [(App_TaskSensorSample_of_due tick data s hdue).1]
      exact Nat.zero_lt_one

/-- Witness of C2: a backend whose read counts its applications. From backend state 0,
last sample at 0, ACTIVE mode: at tick 1000 the read is applied (backend state 1, stamp
1000), at tick 999 it is not (state unchanged). -/
theorem App_TaskSensorSample_read_iff_due_witness :
    (sampleDue 1000 (countingState 0 PowerMode_t.POWER_MODE_ACTIVE) ∧
      ¬ sampleDue 999 (countingState 0 PowerMode_t.POWER_MODE_ACTIVE)) ∧
    ((App_TaskSensorSample 1000 zeroData
        (countingState 0 PowerMode_t.POWER_MODE_ACTIVE)).state.sensor.world = 1 ∧
      (App_TaskSensorSample 1000 zeroData
        (countingState 0 PowerMode_t.POWER_MODE_ACTIVE)).state.lastSampleTick_ms = 1000) ∧
    (App_TaskSensorSample 999 zeroData (countingState 0 PowerMode_t.POWER_MODE_ACTIVE)).state
      = countingState 0 PowerMode_t.POWER_MODE_ACTIVE :=
  have hdue : sampleDue 1000 (countingState 0 PowerMode_t.POWER_MODE_ACTIVE) :=
    ⟨rfl, by decide, by decide⟩
  have hnot : ¬ sampleDue 999 (countingState 0 PowerMode_t.POWER_MODE_ACTIVE) :=
    fun h => absurd h.2.2 (by decide)
  ⟨⟨hdue, hnot⟩,
   ⟨((App_TaskSensorSample_read_iff_due 1000 zeroData
        (countingState 0 PowerMode_t.POWER_MODE_ACTIVE)).2.2.2.2.1 countingIF _ rfl rfl hdue).1,
    ((App_TaskSensorSample_read_iff_due 1000 zeroData
        (countingState 0 PowerMode_t.POWER_MODE_ACTIVE)).2.2.2.2.1 countingIF _ rfl rfl
          hdue).2.1⟩,
   ((App_TaskSensorSample_read_iff_due 999 zeroData
      (countingState 0 PowerMode_t.POWER_MODE_ACTIVE)).2.2.2.1 hnot).1⟩

/-- C3: the due test is wraparound-safe. For every 32-bit last-sample timestamp `L`,
every true elapsed time `d < 2^32` and every mode with non-zero effective period `p`,
running the task (interface bound) at tick `(L + d) mod 2^32` samples if and only if
`d >= p`, also when the tick counter wrapped between `L` and now. Sampling is the
application of the descriptor's `read` to the backend state: for `d >= p` the backend
state afterwards is the one that read returns and the tick is stored; for `d < p` the
state is as it was and nothing is logged. -/
theorem App_TaskSensorSample_wraparound_safe {σ : Type} (L d : Nat) (data : SensorData_t)
    (s : AppState σ) (hL : L < 2 ^ 32) (hd : d < 2 ^ 32)
    (hs : s.lastSampleTick_ms = L) (hi : s.sensor.s_activeIF.isSome = true)
    (hp : sensorPeriodForMode s.mode ≠ 0) :
    (readCalls (App_TaskSensorSample ((L + d) % 2 ^ 32) data s).events = 1 ↔
      sensorPeriodForMode s.mode ≤ d) ∧
    (∀ (b : SensorIF_t σ) (rd : Option SensorData_t → σ → Bool × Option SensorData_t × σ),
      s.sensor.s_activeIF = some b → b.read = some rd → sensorPeriodForMode s.mode ≤ d →
      (App_TaskSensorSample ((L + d) % 2 ^ 32) data s).state.sensor.world
        = (rd (some data) s.sensor.world).2.2 ∧
      (App_TaskSensorSample ((L + d) % 2 ^ 32) data s).state.lastSampleTick_ms
        = (L + d) % 2 ^ 32 ∧
      (App_TaskSensorSample ((L + d) % 2 ^ 32) data s).fault = false ∧
      (App_TaskSensorSample ((L + d) % 2 ^ 32) data s).events
        = [Event.read_call,
           if (rd (some data) s.sensor.world).1 = true
           then Event.log LogLevel.INFO
             "SensorSample: value=%.2f C, timestamp=%lu ms, mode=%d"
           else Event.log LogLevel.WARN "SensorSample: read failed (mode=%d)"]) ∧
    (d < sensorPeriodForMode s.mode →
      (App_TaskSensorSample ((L + d) % 2 ^ 32) data s).state = s ∧
      (App_TaskSensorSample ((L + d) % 2 ^ 32) data s).events = [] ∧
      (App_TaskSensorSample ((L + d) % 2 ^ 32) data s).fault = false) := by
  have hsub : u32_sub (u32 ((L + d) % 2 ^ 32)) s.lastSampleTick_ms = d := by
    rw [u32_sub_u32_left, hs]
    exact u32_sub_add_mod L d hd
  have hdue : sampleDue ((L + d) % 2 ^ 32) s ↔ sensorPeriodForMode s.mode ≤ d := by
    rw [sampleDue_iff, hsub]
    exact ⟨fun h => h.2.2, fun h => ⟨hi, hp, h⟩⟩
  have _hL := hL
  refine ⟨?_, ?_, ?_⟩
  · by_cases h : sampleDue ((L + d) % 2 ^ 32) s
    · have h1 := (App_TaskSensorSample_of_due _ data s h).1
      rw [h1]
      exact ⟨fun _ => hdue.mp h, fun _ => rfl⟩
    · have h1 := (App_TaskSensorSample_of_not_due _ data s h).1
      rw [h1]
      constructor
      · intro h0; exact absurd h0 (by decide)
      · intro hle; exact absurd (hdue.mpr hle) h
  · intro b rd hb hr hle
    obtain ⟨h1, h2, _, _, h5, h6⟩ :=
      App_TaskSensorSample_of_due_bound _ data s b rd (hdue.mpr hle) hb hr
    refine ⟨h1, ?_, h5, h6⟩
    rw [h2]
    exact Nat.mod_mod _ _
  · intro hlt
    have hn : ¬ sampleDue ((L + d) % 2 ^ 32) s := fun h => by
      have := hdue.mp h
      omega
    refine ⟨(App_TaskSensorSample_of_not_due _ data s hn).2, ?_,
      App_TaskSensorSample_not_due_no_fault _ data s hn⟩
    exact App_TaskSensorSample_early_events _ data s hi hp (by omega)

/-- Witness of C3 across a wrap: `L = 2^32 - 296`, `d = 1000`, so the task runs at tick
704 in ACTIVE mode (period 1000), and samples: the counting backend goes from 0 to 1 and
the stamp becomes 704. -/
theorem App_TaskSensorSample_wraparound_safe_witness :
    (4294967000 < 2 ^ 32 ∧ 1000 < 2 ^ 32 ∧ (4294967000 + 1000) % 2 ^ 32 = 704) ∧
    (readCalls (App_TaskSensorSample ((4294967000 + 1000) % 2 ^ 32) zeroData
        (countingState 4294967000 PowerMode_t.POWER_MODE_ACTIVE)).events = 1 ↔
      sensorPeriodForMode PowerMode_t.POWER_MODE_ACTIVE ≤ 1000) ∧
    (App_TaskSensorSample ((4294967000 + 1000) % 2 ^ 32) zeroData
        (countingState 4294967000 PowerMode_t.POWER_MODE_ACTIVE)).state.sensor.world = 1 ∧
    (App_TaskSensorSample ((4294967000 + 1000) % 2 ^ 32) zeroData
        (countingState 4294967000 PowerMode_t.POWER_MODE_ACTIVE)).state.lastSampleTick_ms
      = 704 :=
  ⟨by norm_num,
   (App_TaskSensorSample_wraparound_safe 4294967000 1000 zeroData
    (countingState 4294967000 PowerMode_t.POWER_MODE_ACTIVE) (by norm_num) (by norm_num) rfl
    rfl (by decide)).1,
   ((App_TaskSensorSample_wraparound_safe 4294967000 1000 zeroData
    (countingState 4294967000 PowerMode_t.POWER_MODE_ACTIVE) (by norm_num) (by norm_num) rfl
    rfl (by decide)).2.1 countingIF _ rfl rfl (by decide)).1,
   ((App_TaskSensorSample_wraparound_safe 4294967000 1000 zeroData
    (countingState 4294967000 PowerMode_t.POWER_MODE_ACTIVE) (by norm_num) (by norm_num) rfl
    rfl (by decide)).2.1 countingIF _ rfl rfl (by decide)).2.1⟩

/-- C8, as stated, fails: for a descriptor whose `read` is unbound and whose `init`
succeeds, each of `SensorIF_Init`, `LightIF_Init` and `EnvIF_Init` calls `init` and returns
success. -/
theorem Init_accepts_unbound_read :
    ((SensorIF_Init BuildChoice.SIM (some sensorNoReadIF) (some sensorNoReadIF)
        ⟨none, ()⟩).ret = true ∧
      initCalls (SensorIF_Init BuildChoice.SIM (some sensorNoReadIF) (some sensorNoReadIF)
        ⟨none, ()⟩).events = 1) ∧
    ((LightIF_Init BuildChoice.SIM (some lightNoReadBackend) (some lightNoReadBackend)
        ⟨none, ()⟩).ret = true ∧
      initCalls (LightIF_Init BuildChoice.SIM (some lightNoReadBackend)
        (some lightNoReadBackend) ⟨none, ()⟩).events = 1) ∧
    ((EnvIF_Init BuildChoice.SIM (some envNoReadBackend) (some envNoReadBackend)
        ⟨none, ()⟩).ret = true ∧
      initCalls (EnvIF_Init BuildChoice.SIM (some envNoReadBackend) (some envNoReadBackend)
        ⟨none, ()⟩).events = 1) := by
  decide

/-- C8, amended: each selector `Init` stores the selected descriptor pointer and validates
only that it is non-null and that its `init` capability is bound. When the pointer is
null or `init` is unbound, `Init` returns failure, calls nothing and leaves the backend
state alone; otherwise it calls `init` exactly once and returns its result. The `read`
capability plays no part. -/
theorem Init_validates_init_only {σ : Type} (build : BuildChoice)
    (sIF hIF : Option (SensorIF_t σ)) (sL hL : Option (LightBackend_t σ))
    (sE hE : Option (EnvBackend_t σ)) (w : σ)
    (a0 : Option (SensorIF_t σ)) (l0 : Option (LightBackend_t σ))
    (e0 : Option (EnvBackend_t σ)) :
    (((SensorIF_Init build sIF hIF ⟨a0, w⟩).ret,
        (SensorIF_Init build sIF hIF ⟨a0, w⟩).state.world,
        initCalls (SensorIF_Init build sIF hIF ⟨a0, w⟩).events)
      = initThrough ((build.pick sIF hIF).bind (fun b => b.init)) w ∧
      (SensorIF_Init build sIF hIF ⟨a0, w⟩).state.s_activeIF = build.pick sIF hIF ∧
      readCalls (SensorIF_Init build sIF hIF ⟨a0, w⟩).events = 0) ∧
    (((LightIF_Init build sL hL ⟨l0, w⟩).ret,
        (LightIF_Init build sL hL ⟨l0, w⟩).state.world,
        initCalls (LightIF_Init build sL hL ⟨l0, w⟩).events)
      = initThrough ((build.pick sL hL).bind (fun b => b.init)) w ∧
      (LightIF_Init build sL hL ⟨l0, w⟩).state.s_activeBackend = build.pick sL hL ∧
      readCalls (LightIF_Init build sL hL ⟨l0, w⟩).events = 0) ∧
    (((EnvIF_Init build sE hE ⟨e0, w⟩).ret,
        (EnvIF_Init build sE hE ⟨e0, w⟩).state.world,
        initCalls (EnvIF_Init build sE hE ⟨e0, w⟩).events)
      = initThrough ((build.pick sE hE).bind (fun b => b.init)) w ∧
      (EnvIF_Init build sE hE ⟨e0, w⟩).state.s_activeBackend = build.pick sE hE ∧
      readCalls (EnvIF_Init build sE hE ⟨e0, w⟩).events = 0) := by
  refine ⟨?_, ?_, ?_⟩
  · unfold SensorIF_Init initThrough
    cases build.pick sIF hIF with
    | none => simp [initCalls, readCalls]
    | some b =>
      cases hb : b.init with
      | none => simp [hb, initCalls, readCalls]
      | some f =>
        by_cases hr : (f w).1 = false
        · simp [hb, hr, initCalls, readCalls]
        · simp [hb, hr, initCalls, readCalls]
  · unfold LightIF_Init initThrough
    cases build.pick sL hL with
    | none => simp [initCalls, readCalls]
    | some b =>
      cases hb : b.init with
      | none => simp [hb, initCalls, readCalls]
      | some f =>
        by_cases hr : (f w).1 = false
        · simp [hb, hr, initCalls, readCalls]
        · simp [hb, hr, initCalls, readCalls]
  · unfold EnvIF_Init initThrough
    cases build.pick sE hE with
    | none => simp [initCalls, readCalls]
    | some b =>
      cases hb : b.init with
      | none => simp [hb, initCalls, readCalls]
      | some f =>
        by_cases hr : (f w).1 = false
        · simp [hb, hr, initCalls, readCalls]
        · simp [hb, hr, initCalls, readCalls]

/-- C9: before any `Init` call (active backend pointer null), `LightIF_Read` and
`EnvIF_Read` return failure for every output argument, call no backend read, and leave
the output buffer, the selector state and the backend-side (simulator) state unchanged. -/
theorem Read_before_Init_fails {σ : Type} (w : σ) (outL : Option TSL2591_Data_t)
    (outE : Option EnvData_t) :
    ((LightIF_Read outL (⟨none, w⟩ : LightIF_State σ)).ret = false ∧
      (LightIF_Read outL (⟨none, w⟩ : LightIF_State σ)).out = outL ∧
      (LightIF_Read outL (⟨none, w⟩ : LightIF_State σ)).state = ⟨none, w⟩ ∧
      readCalls (LightIF_Read outL (⟨none, w⟩ : LightIF_State σ)).events = 0) ∧
    ((EnvIF_Read outE (⟨none, w⟩ : EnvIF_State σ)).ret = false ∧
      (EnvIF_Read outE (⟨none, w⟩ : EnvIF_State σ)).out = outE ∧
      (EnvIF_Read outE (⟨none, w⟩ : EnvIF_State σ)).state = ⟨none, w⟩ ∧
      readCalls (EnvIF_Read outE (⟨none, w⟩ : EnvIF_State σ)).events = 0) := by
  refine ⟨⟨rfl, rfl, rfl, ?_⟩, ⟨rfl, rfl, rfl, ?_⟩⟩
  · simp [LightIF_Read, readCalls]
  · simp [EnvIF_Read, readCalls]

/-- C10: with float arithmetic taken as exact, for every raw channel pair `(full, ir)`
and every integration-time/gain setting `prv_compute_lux` returns
`max(0, max((full - 1.87*ir)/cpl, (0.63*full - ir)/cpl))` with `cpl = atimeMs*again/408`;
for `full = 1000`, `ir = 200` at `TSL2591_GAIN_LOW` and `TSL2591_IT_100MS`
(`cpl = 100/408`) the result is the larger of `626/cpl` and `430/cpl`, that is
`626*408/100 = 2554.08`. -/
theorem prv_compute_lux_formula (s_it s_gain full ir : Nat) :
    prv_compute_lux s_it s_gain full ir
      = max 0 (max
          (((full : ℚ) - (187 / 100) * (ir : ℚ))
            / ((prv_atimeMs s_it * prv_again s_gain) / 408))
          (((63 / 100) * (full : ℚ) - (ir : ℚ))
            / ((prv_atimeMs s_it * prv_again s_gain) / 408))) ∧
    (prv_atimeMs TSL2591_IT_100MS * prv_again TSL2591_GAIN_LOW) / 408 = 100 / 408 ∧
    prv_compute_lux TSL2591_IT_100MS TSL2591_GAIN_LOW 1000 200
      = max ((626 : ℚ) / (100 / 408)) ((430 : ℚ) / (100 / 408)) ∧
    prv_compute_lux TSL2591_IT_100MS TSL2591_GAIN_LOW 1000 200 = 626 * 408 / 100 ∧
    prv_compute_lux TSL2591_IT_100MS TSL2591_GAIN_LOW 1000 200 = 255408 / 100 := by
  have hgen : ∀ (a b c d : Nat), prv_compute_lux a b c d
      = max 0 (max
          (((c : ℚ) - (187 / 100) * (d : ℚ)) / ((prv_atimeMs a * prv_again b) / 408))
          (((63 / 100) * (c : ℚ) - (d : ℚ)) / ((prv_atimeMs a * prv_again b) / 408))) := by
    intro a b c d
    have hc := prv_cpl_pos a b
    unfold TSL2591_LUX_DF at hc
    unfold prv_compute_lux TSL2591_LUX_DF
    simp only [not_le.mpr hc, if_false]
    generalize ((c : ℚ) - (187 / 100) * (d : ℚ)) / ((prv_atimeMs a * prv_again b) / 408) = x
    generalize ((63 / 100) * (c : ℚ) - (d : ℚ)) / ((prv_atimeMs a * prv_again b) / 408) = y
    by_cases hxy : y > x
    · rw [if_pos hxy, max_eq_right (le_of_lt hxy)]
      by_cases hy : y < 0
      · rw [if_pos hy, max_eq_left (le_of_lt hy)]
      · rw [if_neg hy, max_eq_right (not_lt.mp hy)]
    · rw [if_neg hxy, max_eq_left (not_lt.mp hxy)]
      by_cases hx : x < 0
      · rw [if_pos hx, max_eq_left (le_of_lt hx)]
      · rw [if_neg hx, max_eq_right (not_lt.mp hx)]
  have hcpl : (prv_atimeMs TSL2591_IT_100MS * prv_again TSL2591_GAIN_LOW) / 408
      = (100 : ℚ) / 408 := by
    simp [prv_atimeMs, prv_again, TSL2591_IT_100MS, TSL2591_GAIN_LOW]
  refine ⟨hgen s_it s_gain full ir, hcpl, ?_, ?_, ?_⟩
  · rw [hgen, hcpl]
    norm_num
  · rw [hgen, hcpl]
    norm_num
  · rw [hgen, hcpl]
    norm_num

/-- C6, at a failing input: hardware light build, a device answering ID `0x51`.
`TSL2591_Init` reports failure and `LightIF_Init` returns false, yet the following
`LightIF_Read` calls the backend read, which succeeds and delivers a sample
(full 1000, ir 200, lux 51.0816). -/
theorem LightIF_Read_after_failed_Init (simBackend : Option (LightBackend_t (Option HubWorld))) :
    (LightIF_Init BuildChoice.HW simBackend (some (LightIF_s_hwBackend 4))
      ⟨none, some foreignDeviceWorld⟩).ret = false ∧
    initCalls (LightIF_Init BuildChoice.HW simBackend (some (LightIF_s_hwBackend 4))
      ⟨none, some foreignDeviceWorld⟩).events = 1 ∧
    (LightIF_Read (some zeroLight)
      (LightIF_Init BuildChoice.HW simBackend (some (LightIF_s_hwBackend 4))
        ⟨none, some foreignDeviceWorld⟩).state).ret = true ∧
    readCalls (LightIF_Read (some zeroLight)
      (LightIF_Init BuildChoice.HW simBackend (some (LightIF_s_hwBackend 4))
        ⟨none, some foreignDeviceWorld⟩).state).events = 1 ∧
    (LightIF_Read (some zeroLight)
      (LightIF_Init BuildChoice.HW simBackend (some (LightIF_s_hwBackend 4))
        ⟨none, some foreignDeviceWorld⟩).state).out
      = some { lux := 31926 / 625, fullChannel := 1000, irChannel := 200,
               timestampMs := 2 } := by
  refine ⟨rfl, rfl, rfl, rfl, ?_⟩
  simp [LightIF_Read, LightIF_Init, BuildChoice.pick, LightIF_s_hwBackend, liftInit, liftRead,
    TSL2591_Init, TSL2591_Read, prv_read_u8, prv_read_u16, prv_wait_data_valid,
    prv_wait_data_valid_loop, Log_GetTimestampMs, HAL_I2C_Mem_Read, foreignDeviceWorld,
    HubWorld.atReset, prv_compute_lux, prv_atimeMs, prv_again, u32_sub, TSL2591_LUX_DF,
    TSL2591_IT_200MS, TSL2591_GAIN_MEDIUM, TSL2591_REG_DEVICE_ID, TSL2591_DEVICE_ID_EXPECTED,
    TSL2591_REG_STATUS, TSL2591_STATUS_AVALID, TSL2591_REG_C0DATAL, TSL2591_REG_C1DATAL,
    TSL2591_I2C_ADDR_8BIT, TSL2591_CMD_NORMAL]
  norm_num

/-- C7, at a failing input: hardware temperature build, no device acknowledging on the
bus. `SensorHWTemp_Init` fails and `SensorIF_Init` returns false, yet
`Sensor_GetInterface` afterwards returns a non-null interface. -/
theorem Sensor_GetInterface_after_failed_Init
    (simIF : Option (SensorIF_t (Option HubWorld))) :
    (SensorIF_Init BuildChoice.HW simIF SensorHWTemp_GetInterface
      ⟨none, some deadBusWorld⟩).ret = false ∧
    initCalls (SensorIF_Init BuildChoice.HW simIF SensorHWTemp_GetInterface
      ⟨none, some deadBusWorld⟩).events = 1 ∧
    (Sensor_GetInterface (SensorIF_Init BuildChoice.HW simIF SensorHWTemp_GetInterface
      ⟨none, some deadBusWorld⟩).state).isSome = true := by
  refine ⟨rfl, rfl, rfl⟩

/-! ## Lemmas on the TSL2591 driver -/

/-- The ID read of `TSL2591_Init`: one read transaction of register `0x12`. -/
theorem TSL2591_Init_id_read (it gain : Nat) (w : HubWorld) :
    prv_read_u8 TSL2591_REG_DEVICE_ID 0
        { w with s_i2c := true, s_it := it, s_gain := gain }
      = (if (w.i2c_answer w.i2c_log.length).status ≠ HAL_StatusTypeDef.HAL_OK
          then (false, 0,
            { w with s_i2c := true, s_it := it, s_gain := gain,
                     i2c_log := w.i2c_log ++ [I2C_Op.mem_read 0x52 0xB2 1 50] })
          else (true, (w.i2c_answer w.i2c_log.length).data.getD 0 0 % 256,
            { w with s_i2c := true, s_it := it, s_gain := gain,
                     i2c_log := w.i2c_log ++ [I2C_Op.mem_read 0x52 0xB2 1 50] })) := by
  have haddr : (160 ||| 18 &&& 31) % 256 = 178 := by decide
  simp only [prv_read_u8, HAL_I2C_Mem_Read, TSL2591_REG_DEVICE_ID, TSL2591_I2C_ADDR_8BIT,
    TSL2591_CMD_NORMAL]
  by_cases hs : (w.i2c_answer w.i2c_log.length).status = HAL_StatusTypeDef.HAL_OK
  · simp [hs, List.range_succ, haddr]
  · simp [hs, haddr]

/-! ## Theorems, continued -/

/-- C11: for every device-ID byte read from the bus that differs from `0x50`,
`TSL2591_Init` returns false and issues no register write: the only transaction of the
call is the read of the ID register. It also returns false, after that one read, when the
ID read itself fails. -/
theorem TSL2591_Init_rejects_foreign_id (it gain : Nat) (w : HubWorld)
    (h : (w.i2c_answer w.i2c_log.length).status ≠ HAL_StatusTypeDef.HAL_OK ∨
      (w.i2c_answer w.i2c_log.length).data.getD 0 0 % 256 ≠ 0x50) :
    (TSL2591_Init it gain w).1 = false ∧
    (TSL2591_Init it gain w).2.i2c_log = w.i2c_log ++ [I2C_Op.mem_read 0x52 0xB2 1 50] ∧
    ((TSL2591_Init it gain w).2.i2c_log.drop w.i2c_log.length).any I2C_Op.isWrite = false := by
  have hlog : (TSL2591_Init it gain w).1 = false ∧
      (TSL2591_Init it gain w).2.i2c_log = w.i2c_log ++ [I2C_Op.mem_read 0x52 0xB2 1 50] := by
    unfold TSL2591_Init
    simp only [TSL2591_Init_id_read]
    by_cases hs : (w.i2c_answer w.i2c_log.length).status = HAL_StatusTypeDef.HAL_OK
    · have hid : (w.i2c_answer w.i2c_log.length).data.getD 0 0 % 256 ≠ 0x50 := by
        rcases h with h | h
        · exact absurd hs h
        · exact h
      simp at hid
      simp [hs, hid, TSL2591_DEVICE_ID_EXPECTED]
    · simp [hs]
  refine ⟨hlog.1, hlog.2, ?_⟩
  rw [hlog.2]
  simp [I2C_Op.isWrite]

/-- Witness of C11: the device of `foreignDeviceWorld` answers ID `0x51`. -/
theorem TSL2591_Init_rejects_foreign_id_witness :
    (foreignDeviceWorld.i2c_answer foreignDeviceWorld.i2c_log.length).data.getD 0 0 % 256
      = 0x51 ∧
    (TSL2591_Init TSL2591_IT_200MS TSL2591_GAIN_MEDIUM foreignDeviceWorld).1 = false ∧
    (TSL2591_Init TSL2591_IT_200MS TSL2591_GAIN_MEDIUM foreignDeviceWorld).2.i2c_log
      = [I2C_Op.mem_read 0x52 0xB2 1 50] :=
  ⟨by decide,
   (TSL2591_Init_rejects_foreign_id TSL2591_IT_200MS TSL2591_GAIN_MEDIUM foreignDeviceWorld
      (Or.inr (by decide))).1,
   (TSL2591_Init_rejects_foreign_id TSL2591_IT_200MS TSL2591_GAIN_MEDIUM foreignDeviceWorld
      (Or.inr (by decide))).2.1⟩

/-- C12: each simulated read (`LightSim_TSL2591_Read`, `EnvSim_Read`,
`SensorSimTemp_ReadImpl`) returns false if and only if its output pointer is null, in
every state (hence also before its `Init`); on a null pointer it leaves the whole
backend-side state, simulator statics included, unchanged. -/
theorem sim_read_fails_iff_null (sinf : ℚ → ℚ) (w : HubWorld) (outL : Option TSL2591_Data_t)
    (outE : Option EnvData_t) (outS : Option SensorData_t) :
    (((LightSim_TSL2591_Read sinf outL w).1 = false ↔ outL = none) ∧
      LightSim_TSL2591_Read sinf none w = (false, none, w)) ∧
    (((EnvSim_Read sinf outE w).1 = false ↔ outE = none) ∧
      EnvSim_Read sinf none w = (false, none, w)) ∧
    (((SensorSimTemp_ReadImpl sinf outS w).1 = false ↔ outS = none) ∧
      SensorSimTemp_ReadImpl sinf none w = (false, none, w)) := by
  refine ⟨⟨?_, rfl⟩, ⟨?_, rfl⟩, ⟨?_, rfl⟩⟩
  · cases outL <;> simp [LightSim_TSL2591_Read]
  · cases outE <;> simp [EnvSim_Read]
  · cases outS <;> simp [SensorSimTemp_ReadImpl]

/-! ## Lemmas on the simulators -/

theorem range_map_getElem_some {β : Type} (f : Nat → β) (m k : Nat) (x : β)
    (h : ((List.range m).map f)[k]? = some x) : x = f k := by
  rw [List.getElem?_map] at h
  by_cases hk : k < m
  · rw [List.getElem?_range hk] at h
    simpa using h.symm
  · rw [List.getElem?_eq_none (by simpa using hk)] at h
    simp at h

/-- A successful light read at phase index `j` produces the sample of index `j + 1`. -/
theorem LightSim_read_some (sinf : ℚ → ℚ) (d : TSL2591_Data_t) (w : HubWorld) (j : Nat)
    (h : w.lightSim = ⟨simPhase (1 / 20) j, 1 / 20, 1⟩) :
    (LightSim_TSL2591_Read sinf (some d) w).1 = true ∧
    (LightSim_TSL2591_Read sinf (some d) w).2.1.toList.map TSL2591_Data_t.measured
      = [lightSimAt sinf (simPhase (1 / 20) (j + 1))] ∧
    (LightSim_TSL2591_Read sinf (some d) w).2.2.lightSim
      = ⟨simPhase (1 / 20) (j + 1), 1 / 20, 1⟩ := by
  simp [LightSim_TSL2591_Read, h, Log_GetTimestampMs, TSL2591_Data_t.measured, lightSimAt,
    simPhase]

/-- The measured parts of the samples of a light call sequence depend on the number of
successful reads only. -/
theorem LightSim_samples_measured (sinf : ℚ → ℚ) :
    ∀ (outs : List (Option TSL2591_Data_t)) (w : HubWorld) (j : Nat),
      w.lightSim = ⟨simPhase (1 / 20) j, 1 / 20, 1⟩ →
      (LightSim_samples sinf outs w).map TSL2591_Data_t.measured
        = (List.range (outs.countP Option.isSome)).map
            (fun k => lightSimAt sinf (simPhase (1 / 20) (j + k + 1))) := by
  intro outs
  induction outs with
  | nil => intro w j _; simp [LightSim_samples]
  | cons out outs ih =>
    intro w j h
    cases out with
    | none =>
      simp only [LightSim_samples, LightSim_TSL2591_Read]
      simpa using ih w j h
    | some d =>
      obtain ⟨h1, h2, h3⟩ := LightSim_read_some sinf d w j h
      simp only [LightSim_samples, h1, if_true, List.map_append, h2]
      rw [ih _ (j + 1) h3]
      simp only [List.countP_cons, Option.isSome_some, if_true, List.range_succ_eq_map,
        List.map_cons, List.map_map]
      simp [Function.comp_def, Nat.add_assoc, Nat.add_comm 1]

/-- A successful environment read at phase index `j` produces the sample of index
`j + 1`. -/
theorem EnvSim_read_some (sinf : ℚ → ℚ) (d : EnvData_t) (w : HubWorld) (j : Nat)
    (h : w.envSim = ⟨simPhase (1 / 50) j, 1 / 50, 1⟩) :
    (EnvSim_Read sinf (some d) w).1 = true ∧
    (EnvSim_Read sinf (some d) w).2.1.toList.map EnvData_t.measured
      = [envSimAt sinf (simPhase (1 / 50) (j + 1))] ∧
    (EnvSim_Read sinf (some d) w).2.2.envSim = ⟨simPhase (1 / 50) (j + 1), 1 / 50, 1⟩ := by
  simp [EnvSim_Read, h, Log_GetTimestampMs, EnvData_t.measured, envSimAt, simPhase]

/-- The measured parts of the samples of an environment call sequence depend on the
number of successful reads only. -/
theorem EnvSim_samples_measured (sinf : ℚ → ℚ) :
    ∀ (outs : List (Option EnvData_t)) (w : HubWorld) (j : Nat),
      w.envSim = ⟨simPhase (1 / 50) j, 1 / 50, 1⟩ →
      (EnvSim_samples sinf outs w).map EnvData_t.measured
        = (List.range (outs.countP Option.isSome)).map
            (fun k => envSimAt sinf (simPhase (1 / 50) (j + k + 1))) := by
  intro outs
  induction outs with
  | nil => intro w j _; simp [EnvSim_samples]
  | cons out outs ih =>
    intro w j h
    cases out with
    | none =>
      simp only [EnvSim_samples, EnvSim_Read]
      simpa using ih w j h
    | some d =>
      obtain ⟨h1, h2, h3⟩ := EnvSim_read_some sinf d w j h
      simp only [EnvSim_samples, h1, if_true, List.map_append, h2]
      rw [ih _ (j + 1) h3]
      simp only [List.countP_cons, Option.isSome_some, if_true, List.range_succ_eq_map,
        List.map_cons, List.map_map]
      simp [Function.comp_def, Nat.add_assoc, Nat.add_comm 1]

/-- The sample at index `k` of a light run that starts with `LightSim_TSL2591_Init`. -/
theorem LightSim_sample_at (sinf : ℚ → ℚ) (w : HubWorld)
    (outs : List (Option TSL2591_Data_t)) (k : Nat) (d : TSL2591_Data_t)
    (h : (LightSim_samples sinf outs (LightSim_TSL2591_Init w).2)[k]? = some d) :
    d.measured = lightSimAt sinf (simPhase (1 / 20) (k + 1)) := by
  have hm := LightSim_samples_measured sinf outs (LightSim_TSL2591_Init w).2 0
    (by simp [LightSim_TSL2591_Init, simPhase])
  have h2 : ((LightSim_samples sinf outs (LightSim_TSL2591_Init w).2).map
      TSL2591_Data_t.measured)[k]? = some d.measured := by
    rw [List.getElem?_map, h]; rfl
  rw [hm] at h2
  have := range_map_getElem_some _ _ _ _ h2
  simpa using this

/-- The sample at index `k` of an environment run that starts with `EnvSim_Init`. -/
theorem EnvSim_sample_at (sinf : ℚ → ℚ) (w : HubWorld)
    (outs : List (Option EnvData_t)) (k : Nat) (d : EnvData_t)
    (h : (EnvSim_samples sinf outs (EnvSim_Init w).2)[k]? = some d) :
    d.measured = envSimAt sinf (simPhase (1 / 50) (k + 1)) := by
  have hm := EnvSim_samples_measured sinf outs (EnvSim_Init w).2 0
    (by simp [EnvSim_Init, simPhase])
  have h2 : ((EnvSim_samples sinf outs (EnvSim_Init w).2).map
      EnvData_t.measured)[k]? = some d.measured := by
    rw [List.getElem?_map, h]; rfl
  rw [hm] at h2
  have := range_map_getElem_some _ _ _ _ h2
  simpa using this

/-- A light run that starts with `LightSim_TSL2591_Init` has one sample per successful
read. -/
theorem LightSim_samples_length (sinf : ℚ → ℚ) (w : HubWorld)
    (outs : List (Option TSL2591_Data_t)) :
    (LightSim_samples sinf outs (LightSim_TSL2591_Init w).2).length
      = outs.countP Option.isSome := by
  have hm := LightSim_samples_measured sinf outs (LightSim_TSL2591_Init w).2 0
    (by simp [LightSim_TSL2591_Init, simPhase])
  have := congrArg List.length hm
  simpa using this

/-- An environment run that starts with `EnvSim_Init` has one sample per successful
read. -/
theorem EnvSim_samples_length (sinf : ℚ → ℚ) (w : HubWorld)
    (outs : List (Option EnvData_t)) :
    (EnvSim_samples sinf outs (EnvSim_Init w).2).length = outs.countP Option.isSome := by
  have hm := EnvSim_samples_measured sinf outs (EnvSim_Init w).2 0
    (by simp [EnvSim_Init, simPhase])
  have := congrArg List.length hm
  simpa using this

/-- C13: the simulated light and environment backends are deterministic in the call
count. Take two runs, each an `Init` followed by a sequence of read calls (null pointers
allowed), from any two states and with any two clocks. For every `n >= 1` for which both
runs have an `n`-th successful read, the lux and raw channel counts (resp. temperature,
pressure and humidity) it writes are the same in both runs; they are a function of `n`. -/
theorem sim_samples_deterministic (sinf : ℚ → ℚ) (w1 w2 : HubWorld)
    (outsL1 outsL2 : List (Option TSL2591_Data_t)) (outsE1 outsE2 : List (Option EnvData_t))
    (n : Nat) (hn : 1 ≤ n)
    (hL1 : n ≤ outsL1.countP Option.isSome) (hL2 : n ≤ outsL2.countP Option.isSome)
    (hE1 : n ≤ outsE1.countP Option.isSome) (hE2 : n ≤ outsE2.countP Option.isSome) :
    (∃ d1 d2 : TSL2591_Data_t,
      (LightSim_samples sinf outsL1 (LightSim_TSL2591_Init w1).2)[n - 1]? = some d1 ∧
      (LightSim_samples sinf outsL2 (LightSim_TSL2591_Init w2).2)[n - 1]? = some d2 ∧
      (d1.lux = d2.lux ∧ d1.fullChannel = d2.fullChannel ∧ d1.irChannel = d2.irChannel) ∧
      d1.measured = lightSimAt sinf (simPhase (1 / 20) n)) ∧
    (∃ d1 d2 : EnvData_t,
      (EnvSim_samples sinf outsE1 (EnvSim_Init w1).2)[n - 1]? = some d1 ∧
      (EnvSim_samples sinf outsE2 (EnvSim_Init w2).2)[n - 1]? = some d2 ∧
      (d1.temperatureC = d2.temperatureC ∧ d1.pressurePa = d2.pressurePa ∧
        d1.humidityRH = d2.humidityRH) ∧
      d1.measured = envSimAt sinf (simPhase (1 / 50) n)) := by
  have hn1 : n - 1 + 1 = n := by omega
  constructor
  · have l1 : n - 1 < (LightSim_samples sinf outsL1 (LightSim_TSL2591_Init w1).2).length := by
      rw [LightSim_samples_length]; omega
    have l2 : n - 1 < (LightSim_samples sinf outsL2 (LightSim_TSL2591_Init w2).2).length := by
      rw [LightSim_samples_length]; omega
    have h1 := List.getElem?_eq_getElem l1
    have h2 := List.getElem?_eq_getElem l2
    have e1 := LightSim_sample_at sinf w1 outsL1 (n - 1) _ h1
    have e2 := LightSim_sample_at sinf w2 outsL2 (n - 1) _ h2
    rw [hn1] at e1 e2
    have e := e1.trans e2.symm
    simp only [TSL2591_Data_t.measured, Prod.mk.injEq] at e
    exact ⟨_, _, h1, h2, e, e1⟩
  · have l1 : n - 1 < (EnvSim_samples sinf outsE1 (EnvSim_Init w1).2).length := by
      rw [EnvSim_samples_length]; omega
    have l2 : n - 1 < (EnvSim_samples sinf outsE2 (EnvSim_Init w2).2).length := by
      rw [EnvSim_samples_length]; omega
    have h1 := List.getElem?_eq_getElem l1
    have h2 := List.getElem?_eq_getElem l2
    have e1 := EnvSim_sample_at sinf w1 outsE1 (n - 1) _ h1
    have e2 := EnvSim_sample_at sinf w2 outsE2 (n - 1) _ h2
    rw [hn1] at e1 e2
    have e := e1.trans e2.symm
    simp only [EnvData_t.measured, Prod.mk.injEq] at e
    exact ⟨_, _, h1, h2, e, e1⟩

/-- Witness of C13: the second successful read of two runs. The first run starts from
reset with a clock that advances by one; the second starts from a world in which the light
simulator had already been read, has another clock, and has failed calls in between. -/
theorem sim_samples_deterministic_witness :
    (1 ≤ 2 ∧
      2 ≤ [some zeroLight, some zeroLight].countP Option.isSome ∧
      2 ≤ [none, some zeroLight, none, some zeroLight].countP Option.isSome ∧
      2 ≤ [some zeroEnv, some zeroEnv].countP Option.isSome ∧
      2 ≤ [some zeroEnv, none, some zeroEnv].countP Option.isSome) ∧
    ((∃ d1 d2 : TSL2591_Data_t,
      (LightSim_samples sinfModel [some zeroLight, some zeroLight]
        (LightSim_TSL2591_Init (clockWorld (fun n => n))).2)[2 - 1]? = some d1 ∧
      (LightSim_samples sinfModel [none, some zeroLight, none, some zeroLight]
        (LightSim_TSL2591_Init (LightSim_TSL2591_Read sinfModel (some zeroLight)
          (clockWorld (fun n => 1000 * n + 7))).2.2).2)[2 - 1]? = some d2 ∧
      (d1.lux = d2.lux ∧ d1.fullChannel = d2.fullChannel ∧ d1.irChannel = d2.irChannel) ∧
      d1.measured = lightSimAt sinfModel (simPhase (1 / 20) 2)) ∧
    (∃ d1 d2 : EnvData_t,
      (EnvSim_samples sinfModel [some zeroEnv, some zeroEnv]
        (EnvSim_Init (clockWorld (fun n => n))).2)[2 - 1]? = some d1 ∧
      (EnvSim_samples sinfModel [some zeroEnv, none, some zeroEnv]
        (EnvSim_Init (LightSim_TSL2591_Read sinfModel (some zeroLight)
          (clockWorld (fun n => 1000 * n + 7))).2.2).2)[2 - 1]? = some d2 ∧
      (d1.temperatureC = d2.temperatureC ∧ d1.pressurePa = d2.pressurePa ∧
        d1.humidityRH = d2.humidityRH) ∧
      d1.measured = envSimAt sinfModel (simPhase (1 / 50) 2))) :=
  ⟨⟨by decide, by decide, by decide, by decide, by decide⟩,
   sim_samples_deterministic sinfModel (clockWorld (fun n => n))
    (LightSim_TSL2591_Read sinfModel (some zeroLight) (clockWorld (fun n => 1000 * n + 7))).2.2
    [some zeroLight, some zeroLight] [none, some zeroLight, none, some zeroLight]
    [some zeroEnv, some zeroEnv] [some zeroEnv, none, some zeroEnv] 2 (by decide)
    (by decide) (by decide) (by decide) (by decide)⟩

/-- The stand-in `sinfModel` takes its values in `[-1, 1]`. -/
theorem sinfModel_bounded (x : ℚ) : -1 ≤ sinfModel x ∧ sinfModel x ≤ 1 := by
  unfold sinfModel
  exact ⟨le_max_left _ _, max_le (by norm_num) (min_le_left _ _)⟩

/-- What `SensorSimTemp_ReadImpl` does on a non-null pointer. -/
theorem SensorSimTemp_ReadImpl_some (sinf : ℚ → ℚ) (d : SensorData_t) (w : HubWorld) :
    SensorSimTemp_ReadImpl sinf (some d) w
      = (true,
          some { value := 25 + 3 * sinf
                   (((u32_sub (w.clock w.clock_reads % 2 ^ 32) w.s_simStartTime_ms : Nat) : ℚ)
                     / 2000),
                 timestamp := w.clock w.clock_reads % 2 ^ 32, mode := 0 },
          { w with clock_reads := w.clock_reads + 1 }) := by
  simp [SensorSimTemp_ReadImpl, HAL_GetTick]

/-- C14, as stated, fails: the first read after init returns 25 in a run whose clock
stands at 0 and 25 + 1841/1280 in a run whose read happens 1000 ticks after init. -/
theorem SensorSimTemp_first_read_depends_on_tick :
    (SensorSimTemp_ReadImpl sinfModel (some zeroData)
      (SensorSimTemp_InitImpl (clockWorld (fun _ => 0))).2).2.1.map (fun d => d.value)
      = some 25 ∧
    (SensorSimTemp_ReadImpl sinfModel (some zeroData)
      (SensorSimTemp_InitImpl (clockWorld (fun n => 1000 * n))).2).2.1.map (fun d => d.value)
      = some (25 + 1841 / 1280) ∧
    (SensorSimTemp_ReadImpl sinfModel (some zeroData)
      (SensorSimTemp_InitImpl (clockWorld (fun _ => 0))).2).2.1.map (fun d => d.value)
      ≠ (SensorSimTemp_ReadImpl sinfModel (some zeroData)
      (SensorSimTemp_InitImpl (clockWorld (fun n => 1000 * n))).2).2.1.map
        (fun d => d.value) := by
  have hA : (SensorSimTemp_ReadImpl sinfModel (some zeroData)
      (SensorSimTemp_InitImpl (clockWorld (fun _ => 0))).2).2.1.map (fun d => d.value)
      = some 25 := by
    rw [SensorSimTemp_ReadImpl_some]
    simp [SensorSimTemp_InitImpl, HAL_GetTick, clockWorld, HubWorld.atReset, u32_sub,
      sinfModel]
  have hB : (SensorSimTemp_ReadImpl sinfModel (some zeroData)
      (SensorSimTemp_InitImpl (clockWorld (fun n => 1000 * n))).2).2.1.map
        (fun d => d.value) = some (25 + 1841 / 1280) := by
    rw [SensorSimTemp_ReadImpl_some]
    simp [SensorSimTemp_InitImpl, HAL_GetTick, clockWorld, HubWorld.atReset, u32_sub,
      sinfModel]
    norm_num
  refine ⟨hA, hB, ?_⟩
  rw [hA, hB]
  norm_num

/-- C14, amended: the simulated temperature backend is a pure function of the time
elapsed since its init, not of a call count. Init stores the tick; a read at tick `now`
returns `25 + 3*sin(((now - start) mod 2^32)/2000)` with timestamp `now` and changes no
simulator static; so two reads at the same elapsed time return the same value, whatever
the runs they belong to. -/
theorem SensorSimTemp_value_function_of_elapsed (sinf : ℚ → ℚ) (d1 d2 : SensorData_t)
    (w1 w2 : HubWorld) :
    (SensorSimTemp_InitImpl w1).2.s_simStartTime_ms = w1.clock w1.clock_reads % 2 ^ 32 ∧
    (SensorSimTemp_ReadImpl sinf (some d1) w1).2.1
      = some { value := 25 + 3 * sinf
                 (((u32_sub (w1.clock w1.clock_reads % 2 ^ 32) w1.s_simStartTime_ms : Nat) : ℚ)
                   / 2000),
               timestamp := w1.clock w1.clock_reads % 2 ^ 32, mode := 0 } ∧
    ((u32_sub (w1.clock w1.clock_reads % 2 ^ 32) w1.s_simStartTime_ms : Nat) : Int)
      = ((w1.clock w1.clock_reads : Int) - (w1.s_simStartTime_ms : Int)) % 2 ^ 32 ∧
    (SensorSimTemp_ReadImpl sinf (some d1) w1).2.2.s_simStartTime_ms = w1.s_simStartTime_ms ∧
    (u32_sub (w1.clock w1.clock_reads % 2 ^ 32) w1.s_simStartTime_ms
        = u32_sub (w2.clock w2.clock_reads % 2 ^ 32) w2.s_simStartTime_ms →
      (SensorSimTemp_ReadImpl sinf (some d1) w1).2.1.map (fun d => d.value)
        = (SensorSimTemp_ReadImpl sinf (some d2) w2).2.1.map (fun d => d.value)) := by
  refine ⟨?_, ?_, ?_, ?_, ?_⟩
  · simp [SensorSimTemp_InitImpl, HAL_GetTick]
  · rw [SensorSimTemp_ReadImpl_some]
  · have h := u32_sub_u32_left (w1.clock w1.clock_reads) w1.s_simStartTime_ms
    unfold u32 at h
    rw [h]
    exact u32_sub_eq_emod _ _
  · rw [SensorSimTemp_ReadImpl_some]
  · intro h
    rw [SensorSimTemp_ReadImpl_some, SensorSimTemp_ReadImpl_some, h]
    rfl

/-- C15: with `-1 <= sin <= 1`, every successful `LightSim_TSL2591_Read` (every call
with a non-null pointer), in every state, produces a lux value with `10 <= lux <= 890`,
hence `0 <= lux <= 900`; the clamp at zero never fires, the value is
`450 + 440*sin(phase)`. -/
theorem LightSim_lux_bounds (sinf : ℚ → ℚ) (hsin : ∀ x, -1 ≤ sinf x ∧ sinf x ≤ 1)
    (d0 : TSL2591_Data_t) (w : HubWorld) :
    (LightSim_TSL2591_Read sinf (some d0) w).1 = true ∧
    (∃ d, (LightSim_TSL2591_Read sinf (some d0) w).2.1 = some d ∧
      (0 ≤ d.lux ∧ d.lux ≤ 900) ∧ (10 ≤ d.lux ∧ d.lux ≤ 890) ∧
      d.lux = 450 + 440 * sinf (LightSim_TSL2591_Read sinf (some d0) w).2.2.lightSim.s_phase)
    := by
  simp only [LightSim_TSL2591_Read, Log_GetTimestampMs]
  generalize (if (if w.lightSim.s_initialized = 0 then (LightSim_TSL2591_Init w).2
        else w).lightSim.s_phase + (if w.lightSim.s_initialized = 0
        then (LightSim_TSL2591_Init w).2 else w).lightSim.s_phaseStep > 2 * M_PI_F
      then (if w.lightSim.s_initialized = 0 then (LightSim_TSL2591_Init w).2
        else w).lightSim.s_phase + (if w.lightSim.s_initialized = 0
        then (LightSim_TSL2591_Init w).2 else w).lightSim.s_phaseStep - 2 * M_PI_F
      else (if w.lightSim.s_initialized = 0 then (LightSim_TSL2591_Init w).2
        else w).lightSim.s_phase + (if w.lightSim.s_initialized = 0
        then (LightSim_TSL2591_Init w).2 else w).lightSim.s_phaseStep) = p
  obtain ⟨h1, h2⟩ := hsin p
  have hnn : ¬ (450 + 440 * sinf p < 0) := by linarith
  refine ⟨trivial, _, rfl, ?_⟩
  simp only [hnn, if_false]
  exact ⟨⟨by linarith, by linarith⟩, ⟨by linarith, by linarith⟩, trivial⟩

/-- Witness of C15: the first read from reset, with the stand-in `sinfModel`. -/
theorem LightSim_lux_bounds_witness :
    (∀ x, -1 ≤ sinfModel x ∧ sinfModel x ≤ 1) ∧
    (∃ d, (LightSim_TSL2591_Read sinfModel (some zeroLight) (clockWorld (fun n => n))).2.1
        = some d ∧ 10 ≤ d.lux ∧ d.lux ≤ 890) :=
  ⟨sinfModel_bounded,
   let ⟨d, h1, _, h3, _⟩ := (LightSim_lux_bounds sinfModel sinfModel_bounded zeroLight
      (clockWorld (fun n => n))).2
   ⟨d, h1, h3⟩⟩

/-- C16: with `-1 <= sin <= 1`, in every state and at every tick the simulated
temperatures stay within `[20, 28]` degrees C: `EnvSim_Read` writes
`temperatureC = 24 + 4*sin(phase)` in `[20, 28]` and `SensorSimTemp_ReadImpl` writes
`value = 25 + 3*sin(elapsed/2000)` in `[22, 28]`. -/
theorem sim_temperature_bounds (sinf : ℚ → ℚ) (hsin : ∀ x, -1 ≤ sinf x ∧ sinf x ≤ 1)
    (w : HubWorld) (eOut : EnvData_t) (sOut : SensorData_t) :
    (∃ e, (EnvSim_Read sinf (some eOut) w).2.1 = some e ∧
      e.temperatureC = 24 + 4 * sinf (EnvSim_Read sinf (some eOut) w).2.2.envSim.s_phase ∧
      20 ≤ e.temperatureC ∧ e.temperatureC ≤ 28) ∧
    (∃ t, (SensorSimTemp_ReadImpl sinf (some sOut) w).2.1 = some t ∧
      t.value = 25 + 3 * sinf
        (((u32_sub (w.clock w.clock_reads % 2 ^ 32) w.s_simStartTime_ms : Nat) : ℚ) / 2000) ∧
      22 ≤ t.value ∧ t.value ≤ 28 ∧ 20 ≤ t.value) := by
  constructor
  · simp only [EnvSim_Read, Log_GetTimestampMs]
    refine ⟨_, rfl, rfl, ?_, ?_⟩
    · have := (hsin (EnvSim_Read sinf (some eOut) w).2.2.envSim.s_phase).1
      simp only [EnvSim_Read, Log_GetTimestampMs] at this
      linarith
    · have := (hsin (EnvSim_Read sinf (some eOut) w).2.2.envSim.s_phase).2
      simp only [EnvSim_Read, Log_GetTimestampMs] at this
      linarith
  · rw [SensorSimTemp_ReadImpl_some]
    obtain ⟨h1, h2⟩ := hsin
      (((u32_sub (w.clock w.clock_reads % 2 ^ 32) w.s_simStartTime_ms : Nat) : ℚ) / 2000)
    exact ⟨_, rfl, rfl, by linarith, by linarith, by linarith⟩

/-- Witness of C16: reads from reset, with the stand-in `sinfModel`. -/
theorem sim_temperature_bounds_witness :
    (∀ x, -1 ≤ sinfModel x ∧ sinfModel x ≤ 1) ∧
    (∃ t, (SensorSimTemp_ReadImpl sinfModel (some zeroData)
        (clockWorld (fun n => 1000 * n))).2.1 = some t ∧ 22 ≤ t.value ∧ t.value ≤ 28) :=
  ⟨sinfModel_bounded,
   let ⟨t, h1, _, h3, h4, _⟩ := (sim_temperature_bounds sinfModel sinfModel_bounded
      (clockWorld (fun n => 1000 * n)) zeroEnv zeroData).2
   ⟨t, h1, h3, h4⟩⟩


/-! ## Lemmas on the temperature conversion -/

theorem lor_shift8 (a b : Nat) (hb : b < 256) : (a <<< 8) ||| b = a * 256 + b := by
  have h := Nat.mul_add_lt_is_or (i := 8) (b := b) (by simpa using hb) a
  rw [Nat.shiftLeft_eq, Nat.mul_comm]
  norm_num at h ⊢
  omega

theorem lor_F000 (r : Nat) (hr : r < 4096) : r ||| 0xF000 = r + 61440 := by
  have h := Nat.mul_add_lt_is_or (i := 12) (b := r) (by simpa using hr) 15
  rw [Nat.lor_comm]
  norm_num at h ⊢
  omega

theorem land_800 (r : Nat) (hr : r < 4096) : (r &&& 0x800 ≠ 0) ↔ 2048 ≤ r := by
  have h := Nat.and_two_pow r 11
  have e : (2 : Nat) ^ 11 = 0x800 := by norm_num
  rw [e] at h
  rw [h, Nat.testBit_to_div_mod]
  by_cases hd : r / 2 ^ 11 % 2 = 1
  · simp [hd]; omega
  · simp [hd]; omega

/-- The sign extension of `SensorHWTemp_Read` computes the floor of the 16-bit two's
complement word divided by 16. -/
theorem signed12_eq (rx0 rx1 : Nat) (h0 : rx0 < 256) (h1 : rx1 < 256) :
    (if ((((rx0 <<< 8) ||| rx1) % 65536) >>> 4) &&& 0x800 ≠ 0
      then int16_of_u16 (((((rx0 <<< 8) ||| rx1) % 65536) >>> 4) ||| 0xF000)
      else int16_of_u16 ((((rx0 <<< 8) ||| rx1) % 65536) >>> 4))
    = signed12_spec rx0 rx1 ∧
    signed12_spec rx0 rx1
      = ((rx0 * 256 + rx1 : Nat) : Int) / 16 - (if rx0 < 128 then 0 else 4096) := by
  have hs : signed12_spec rx0 rx1
      = ((rx0 * 256 + rx1 : Nat) : Int) / 16 - (if rx0 < 128 then 0 else 4096) := by
    unfold signed12_spec
    have := Rat.floor_intCast_div_natCast (int16_of_u16 (rx0 * 256 + rx1)) 16
    norm_num at this
    rw [this]
    unfold int16_of_u16
    split_ifs <;> omega
  refine ⟨?_, hs⟩
  rw [hs, lor_shift8 rx0 rx1 h1, Nat.shiftRight_eq_div_pow]
  have hr : (rx0 * 256 + rx1) % 65536 / 2 ^ 4 < 4096 := by omega
  rw [lor_F000 _ hr]
  simp only [land_800 _ hr]
  unfold int16_of_u16
  split_ifs <;> omega

/-- What `SensorHWTemp_Read` writes after a successful bus read of the bytes `rx0`,
`rx1`. -/
theorem SensorHWTemp_Read_ok (rx0 rx1 : Nat) (d : SensorData_t) (w : HubWorld)
    (h0 : rx0 < 256) (h1 : rx1 < 256)
    (hans : w.i2c_answer w.i2c_log.length = ⟨HAL_StatusTypeDef.HAL_OK, [rx0, rx1]⟩) :
    (SensorHWTemp_Read (some d) w).1 = true ∧
    (SensorHWTemp_Read (some d) w).2.1
      = some { value := (signed12_spec rx0 rx1 : ℚ) * (1 / 16),
               timestamp := w.clock w.clock_reads % 2 ^ 32, mode := 0 } := by
  have hs := (signed12_eq rx0 rx1 h0 h1).1
  have e0 : rx0 % 256 = rx0 := Nat.mod_eq_of_lt h0
  have e1 : rx1 % 256 = rx1 := Nat.mod_eq_of_lt h1
  simp only [SensorHWTemp_Read, HAL_I2C_Mem_Read, hans, Log_GetTimestampMs]
  simp only [List.range_succ, List.range_zero, List.nil_append, List.cons_append,
    List.map_cons, List.map_nil, List.getD_cons_zero, List.getD_cons_succ, e0, e1, ne_eq,
    not_true_eq_false, if_false]
  rw [hs]
  norm_num

/-- C17: for every pair of bytes `(rx0, rx1)` returned by a successful bus read,
`SensorHWTemp_Read` reports `value = s * 0.0625` where `s = floor(int16(rx0<<8 | rx1) / 16)`
is the two's-complement 12-bit integer in the top 12 bits of the big-endian word; `s` is
in `[-2048, 2047]` and the value in `[-128, 127.9375]`; the bytes `0x19, 0x00` give 25.0
and `0xFF, 0xF0` give -0.0625. -/
theorem SensorHWTemp_Read_value (rx0 rx1 : Nat) (d : SensorData_t) (w : HubWorld)
    (h0 : rx0 < 256) (h1 : rx1 < 256)
    (hans : w.i2c_answer w.i2c_log.length = ⟨HAL_StatusTypeDef.HAL_OK, [rx0, rx1]⟩) :
    (SensorHWTemp_Read (some d) w).1 = true ∧
    (SensorHWTemp_Read (some d) w).2.1.map (fun o => o.value)
      = some ((signed12_spec rx0 rx1 : ℚ) * (625 / 10000)) ∧
    signed12_spec rx0 rx1
      = ((rx0 * 256 + rx1 : Nat) : Int) / 16 - (if rx0 < 128 then 0 else 4096) ∧
    (-2048 ≤ signed12_spec rx0 rx1 ∧ signed12_spec rx0 rx1 ≤ 2047) ∧
    (-128 ≤ (signed12_spec rx0 rx1 : ℚ) * (625 / 10000) ∧
      (signed12_spec rx0 rx1 : ℚ) * (625 / 10000) ≤ 1279375 / 10000) ∧
    ((SensorHWTemp_Read (some d) (tempSensorWorld 0x19 0x00)).2.1.map (fun o => o.value)
        = some 25 ∧
      (SensorHWTemp_Read (some d) (tempSensorWorld 0xFF 0xF0)).2.1.map (fun o => o.value)
        = some (-625 / 10000)) := by
  obtain ⟨hr, ho⟩ := SensorHWTemp_Read_ok rx0 rx1 d w h0 h1 hans
  have hs := (signed12_eq rx0 rx1 h0 h1).2
  have hb : -2048 ≤ signed12_spec rx0 rx1 ∧ signed12_spec rx0 rx1 ≤ 2047 := by
    rw [hs]
    split_ifs <;> omega
  have hq1 : (-2048 : ℚ) ≤ (signed12_spec rx0 rx1 : ℚ) := by exact_mod_cast hb.1
  have hq2 : (signed12_spec rx0 rx1 : ℚ) ≤ 2047 := by exact_mod_cast hb.2
  refine ⟨hr, ?_, hs, hb, ⟨by linarith, by linarith⟩, ?_, ?_⟩
  · rw [ho]
    norm_num
  · have h := (SensorHWTemp_Read_ok 0x19 0x00 d (tempSensorWorld 0x19 0x00) (by norm_num)
      (by norm_num) rfl).2
    have e := (signed12_eq 0x19 0x00 (by norm_num) (by norm_num)).2
    norm_num at e
    rw [h, e]
    norm_num
  · have h := (SensorHWTemp_Read_ok 0xFF 0xF0 d (tempSensorWorld 0xFF 0xF0) (by norm_num)
      (by norm_num) rfl).2
    have e := (signed12_eq 0xFF 0xF0 (by norm_num) (by norm_num)).2
    norm_num at e
    rw [h, e]
    norm_num

/-- Witness of C17: the bytes `0xE7, 0x00` (word `0xE700`, -6400 as `int16`) give
`s = -400` and -25.0. -/
theorem SensorHWTemp_Read_value_witness :
    (0xE7 < 256 ∧ 0x00 < 256 ∧
      (tempSensorWorld 0xE7 0x00).i2c_answer (tempSensorWorld 0xE7 0x00).i2c_log.length
        = ⟨HAL_StatusTypeDef.HAL_OK, [0xE7, 0x00]⟩) ∧
    (SensorHWTemp_Read (some zeroData) (tempSensorWorld 0xE7 0x00)).1 = true ∧
    (SensorHWTemp_Read (some zeroData) (tempSensorWorld 0xE7 0x00)).2.1.map (fun o => o.value)
      = some ((signed12_spec 0xE7 0x00 : ℚ) * (625 / 10000)) ∧
    signed12_spec 0xE7 0x00 = ((0xE7 * 256 + 0x00 : Nat) : Int) / 16 - 4096 :=
  ⟨⟨by norm_num, by norm_num, rfl⟩,
   (SensorHWTemp_Read_value 0xE7 0x00 zeroData (tempSensorWorld 0xE7 0x00) (by norm_num)
      (by norm_num) rfl).1,
   (SensorHWTemp_Read_value 0xE7 0x00 zeroData (tempSensorWorld 0xE7 0x00) (by norm_num)
      (by norm_num) rfl).2.1,
   (SensorHWTemp_Read_value 0xE7 0x00 zeroData (tempSensorWorld 0xE7 0x00) (by norm_num)
      (by norm_num) rfl).2.2.1⟩


/-! ## Lemmas on startup -/

/-- The call list of `App_MainInit` is `startupCalls` of the three selector results. -/
theorem App_MainInit_calls {α : Type} (c : AppCollaborators α) (s : α) :
    (App_MainInit c s).2
      = startupCalls
          (c.SensorIF_Init (c.PowerManager_Init (c.AppTaskManager_Init s))).1
          (c.LightIF_Init
            (c.SensorIF_Init (c.PowerManager_Init (c.AppTaskManager_Init s))).2).1
          (c.EnvIF_Init (c.LightIF_Init
            (c.SensorIF_Init (c.PowerManager_Init (c.AppTaskManager_Init s))).2).2).1 := by
  rfl

/-- The state after `App_MainInit` is the initial state passed through the two manager
`Init` functions, the three selector `Init` functions and the six registrations, each
applied once, in program order. -/
theorem App_MainInit_state {α : Type} (c : AppCollaborators α) (s : α) :
    (App_MainInit c s).1
      = (c.AppTaskManager_RegisterTask s_envTask
          (c.AppTaskManager_RegisterTask s_lightTask
            (c.AppTaskManager_RegisterTask s_cliTask
              (c.AppTaskManager_RegisterTask s_powerTask
                (c.AppTaskManager_RegisterTask s_sensorTask
                  (c.AppTaskManager_RegisterTask s_heartbeatTask
                    (c.EnvIF_Init (c.LightIF_Init (c.SensorIF_Init
                      (c.PowerManager_Init (c.AppTaskManager_Init s))).2).2).2).2).2).2).2).2).2 := by
  rfl

/-- Over the task table, with room for six descriptors, `App_MainInit` leaves exactly the
six descriptors in the table, whatever the selectors returned and whatever the table
held before. -/
theorem App_MainInit_table (a b e : Bool) (cap : Nat) (ts : List AppTaskDescriptor_t)
    (h : 6 ≤ cap) :
    (App_MainInit (tableCollaborators a b e) ⟨cap, ts⟩).1
      = ⟨cap, [s_heartbeatTask, s_sensorTask, s_powerTask, s_cliTask, s_lightTask,
          s_envTask]⟩ := by
  rw [App_MainInit_state]
  have h0 : 0 < cap := by omega
  have h1 : 1 < cap := by omega
  have h2 : 2 < cap := by omega
  have h3 : 3 < cap := by omega
  have h4 : 4 < cap := by omega
  have h5 : 5 < cap := by omega
  simp [tableCollaborators, TaskTable.init, TaskTable.registerTask, h0, h1, h2, h3, h4, h5]

/-- C18: `App_MainInit` never halts on a subsystem init failure. For every behaviour of
its collaborators, hence for every combination of results of `SensorIF_Init`,
`LightIF_Init` and `EnvIF_Init`, it makes the same six `AppTaskManager_RegisterTask`
calls in the same order (Heartbeat, SensorSample, PowerManager, CLI, LightSample,
EnvSample), after `AppTaskManager_Init` and `PowerManager_Init`, and reaches its last
statement. The calls are applications of the collaborators: the state afterwards is the
initial state passed through `AppTaskManager_Init`, `PowerManager_Init`, the three
selector `Init` functions and the six registrations in that order, the messages logged
are those of the three selector results, and over a task table with room for six
descriptors the table holds exactly the six descriptors afterwards, for every
combination of selector results. -/
theorem App_MainInit_registers_six {α : Type} (c : AppCollaborators α) (s : α) :
    registeredTasks (App_MainInit c s).2
      = [s_heartbeatTask, s_sensorTask, s_powerTask, s_cliTask, s_lightTask, s_envTask] ∧
    (registeredTasks (App_MainInit c s).2).map (fun t => t.name)
      = ["Heartbeat", "SensorSample", "PowerManager", "CLI", "LightSample", "EnvSample"] ∧
    managerCalls (App_MainInit c s).2
      = [AppCall.AppTaskManager_Init, AppCall.PowerManager_Init,
         AppCall.AppTaskManager_RegisterTask s_heartbeatTask,
         AppCall.AppTaskManager_RegisterTask s_sensorTask,
         AppCall.AppTaskManager_RegisterTask s_powerTask,
         AppCall.AppTaskManager_RegisterTask s_cliTask,
         AppCall.AppTaskManager_RegisterTask s_lightTask,
         AppCall.AppTaskManager_RegisterTask s_envTask] ∧
    (App_MainInit c s).2.getLast?
      = some (AppCall.log LogLevel.INFO "Application initialization completed") ∧
    (App_MainInit c s).1
      = (c.AppTaskManager_RegisterTask s_envTask
          (c.AppTaskManager_RegisterTask s_lightTask
            (c.AppTaskManager_RegisterTask s_cliTask
              (c.AppTaskManager_RegisterTask s_powerTask
                (c.AppTaskManager_RegisterTask s_sensorTask
                  (c.AppTaskManager_RegisterTask s_heartbeatTask
                    (c.EnvIF_Init (c.LightIF_Init (c.SensorIF_Init
                      (c.PowerManager_Init (c.AppTaskManager_Init s))).2).2).2).2).2).2).2).2).2 ∧
    (App_MainInit c s).2
      = startupCalls
          (c.SensorIF_Init (c.PowerManager_Init (c.AppTaskManager_Init s))).1
          (c.LightIF_Init
            (c.SensorIF_Init (c.PowerManager_Init (c.AppTaskManager_Init s))).2).1
          (c.EnvIF_Init (c.LightIF_Init
            (c.SensorIF_Init (c.PowerManager_Init (c.AppTaskManager_Init s))).2).2).1 ∧
    (∀ (a b e : Bool) (cap : Nat) (ts : List AppTaskDescriptor_t), 6 ≤ cap →
      (App_MainInit (tableCollaborators a b e) ⟨cap, ts⟩).1
        = ⟨cap, [s_heartbeatTask, s_sensorTask, s_powerTask, s_cliTask, s_lightTask,
            s_envTask]⟩) := by
  refine ⟨?_, ?_, ?_, ?_, App_MainInit_state c s, App_MainInit_calls c s,
    App_MainInit_table⟩ <;>
  · rw [App_MainInit_calls]
    generalize (c.SensorIF_Init (c.PowerManager_Init (c.AppTaskManager_Init s))).1 = r1
    generalize (c.LightIF_Init
      (c.SensorIF_Init (c.PowerManager_Init (c.AppTaskManager_Init s))).2).1 = r2
    generalize (c.EnvIF_Init (c.LightIF_Init
      (c.SensorIF_Init (c.PowerManager_Init (c.AppTaskManager_Init s))).2).2).1 = r3
    cases r1 <;> cases r2 <;> cases r3 <;> decide

/-- Witness of C18: all three selectors fail and the table (capacity 8) holds a stale
descriptor before; afterwards it holds the six descriptors, in order. -/
theorem App_MainInit_registers_six_witness :
    (6 ≤ 8) ∧
    (App_MainInit (tableCollaborators false false false) ⟨8, [s_cliTask]⟩).1
      = ⟨8, [s_heartbeatTask, s_sensorTask, s_powerTask, s_cliTask, s_lightTask,
          s_envTask]⟩ :=
  ⟨by decide,
   (App_MainInit_registers_six (tableCollaborators false false false)
      ⟨8, [s_cliTask]⟩).2.2.2.2.2.2 false false false 8 [s_cliTask] (by decide)⟩

/-- `prv_read_u8` does not touch the clock. -/
theorem prv_read_u8_clock (reg value : Nat) (w : HubWorld) :
    (prv_read_u8 reg value w).2.2.clock = w.clock ∧
    (prv_read_u8 reg value w).2.2.clock_reads = w.clock_reads := by
  simp only [prv_read_u8, HAL_I2C_Mem_Read]
  split_ifs <;> exact ⟨rfl, rfl⟩

/-- The polling loop leaves once a clock reading shows the timeout, if the fuel reaches
that reading. -/
theorem prv_wait_data_valid_loop_returns (start timeoutMs : Nat) :
    ∀ (fuel status : Nat) (w : HubWorld) (j : Nat), j < fuel →
      timeoutMs ≤ u32_sub (w.clock (w.clock_reads + j) % 2 ^ 32) start →
      (prv_wait_data_valid_loop start timeoutMs fuel status w).isSome = true := by
  intro fuel
  induction fuel with
  | zero => intro status w j hj; omega
  | succ f ih =>
    intro status w j hj ht
    unfold prv_wait_data_valid_loop
    simp only [Log_GetTimestampMs]
    by_cases hc : u32_sub (w.clock w.clock_reads % 2 ^ 32) start < timeoutMs
    · simp only [hc, if_true]
      split_ifs
      · rfl
      · rfl
      · cases j with
        | zero =>
          rw [Nat.add_zero] at ht
          omega
        | succ k =>
          apply ih _ _ k (by omega)
          obtain ⟨h1, h2⟩ := prv_read_u8_clock TSL2591_REG_STATUS status
            { w with clock_reads := w.clock_reads + 1 }
          rw [h1, h2]
          simpa [Nat.add_assoc, Nat.add_comm 1 k] using ht
    · simp only [hc, if_false]
      rfl

/-- C20: `TSL2591_Read` is atomic on failure. Whenever it returns false (null output
pointer, driver never initialised, data-ready timeout, status read error, failed read of
either channel) the output record is as it was; when the output pointer is null or the
driver was never initialised it returns false with the whole state unchanged, so without
any bus transaction. It does return as soon as a reading of the clock shows that the
1000 ms have elapsed. -/
theorem TSL2591_Read_atomic_on_failure (fuel : Nat) (out : Option TSL2591_Data_t)
    (w : HubWorld) :
    (∀ r, TSL2591_Read fuel out w = some r → r.1 = false → r.2.1 = out) ∧
    ((out = none ∨ w.s_i2c = false) →
      TSL2591_Read fuel out w = some (false, out, w) ∧
      (TSL2591_Read fuel out w).map (fun r => r.2.2.i2c_log) = some w.i2c_log) ∧
    (∀ j, j < fuel →
      1000 ≤ u32_sub (w.clock (w.clock_reads + 1 + j) % 2 ^ 32)
        (w.clock w.clock_reads % 2 ^ 32) →
      (TSL2591_Read fuel out w).isSome = true) := by
  refine ⟨?_, ?_, ?_⟩
  · intro r h hf
    unfold TSL2591_Read at h
    cases out with
    | none =>
      have e := Option.some.inj h
      subst e
      rfl
    | some d =>
      simp only at h
      by_cases hi : w.s_i2c = false
      · simp only [hi, if_true] at h
        have e := Option.some.inj h
        subst e
        rfl
      · simp only [hi, if_false] at h
        cases hw : prv_wait_data_valid fuel 1000 w with
        | none => simp [hw] at h
        | some p =>
          obtain ⟨b, w1⟩ := p
          cases b with
          | false =>
            simp only [hw] at h
            have e := Option.some.inj h
            subst e
            rfl
          | true =>
            simp only [hw] at h
            by_cases h0 : (prv_read_u16 TSL2591_REG_C0DATAL 0 w1).1 = false
            · simp only [h0, if_true] at h
              have e := Option.some.inj h
              subst e
              rfl
            · simp only [h0, if_false] at h
              by_cases h1 : (prv_read_u16 TSL2591_REG_C1DATAL 0
                  (prv_read_u16 TSL2591_REG_C0DATAL 0 w1).2.2).1 = false
              · simp only [h1, if_true] at h
                have e := Option.some.inj h
                subst e
                rfl
              · simp only [h1, if_false] at h
                have e := Option.some.inj h
                subst e
                simp at hf
  · intro h
    have e : TSL2591_Read fuel out w = some (false, out, w) := by
      unfold TSL2591_Read
      cases out with
      | none => rfl
      | some d =>
        rcases h with h | h
        · simp at h
        · simp [h]
    exact ⟨e, by rw [e]; rfl⟩
  · intro j hj ht
    unfold TSL2591_Read
    cases out with
    | none => rfl
    | some d =>
      simp only
      by_cases hi : w.s_i2c = false
      · simp [hi]
      · simp only [hi, if_false]
        have hl : (prv_wait_data_valid fuel 1000 w).isSome = true := by
          unfold prv_wait_data_valid
          simp only [Log_GetTimestampMs]
          exact prv_wait_data_valid_loop_returns _ _ fuel 0 _ j hj (by simpa using ht)
        cases hw : prv_wait_data_valid fuel 1000 w with
        | none => simp [hw] at hl
        | some p =>
          obtain ⟨b, w1⟩ := p
          cases b with
          | false => rfl
          | true =>
            simp only
            split_ifs <;> rfl

/-- Witness of C20: on a bus where no device acknowledges, after a (failed) `TSL2591_Init`
has set `s_i2c`, the read polls STATUS once, the transaction fails, and the read returns
false with the output record as it was. -/
theorem TSL2591_Read_atomic_on_failure_witness :
    (TSL2591_Read 4 (some zeroLight) deadBusAfterInit).map
        (fun r => (r.1, r.2.1, r.2.2.i2c_log.length - deadBusAfterInit.i2c_log.length))
      = some (false, some zeroLight, 1) ∧
    (∀ r, TSL2591_Read 4 (some zeroLight) deadBusAfterInit = some r → r.1 = false →
      r.2.1 = some zeroLight) :=
  ⟨rfl, (TSL2591_Read_atomic_on_failure 4 (some zeroLight) deadBusAfterInit).1⟩


/-! ## Further lemmas on the lux computation -/

theorem prv_atimeMs_ge (s_it : Nat) : 100 ≤ prv_atimeMs s_it := by
  unfold prv_atimeMs
  split_ifs <;> norm_num

theorem prv_again_ge (s_gain : Nat) : 1 ≤ prv_again s_gain := by
  unfold prv_again
  split_ifs <;> norm_num

/-- `prv_compute_lux` without its early return: the clamped larger of the two formulas. -/
theorem prv_compute_lux_eq_max (s_it s_gain full ir : Nat) :
    prv_compute_lux s_it s_gain full ir
      = max 0 (max
          (((full : ℚ) - (187 / 100) * (ir : ℚ))
            / ((prv_atimeMs s_it * prv_again s_gain) / TSL2591_LUX_DF))
          (((63 / 100) * (full : ℚ) - (ir : ℚ))
            / ((prv_atimeMs s_it * prv_again s_gain) / TSL2591_LUX_DF))) := by
  have hc := prv_cpl_pos s_it s_gain
  unfold prv_compute_lux
  simp only [not_le.mpr hc, if_false]
  generalize ((full : ℚ) - (187 / 100) * (ir : ℚ))
    / ((prv_atimeMs s_it * prv_again s_gain) / TSL2591_LUX_DF) = x
  generalize ((63 / 100) * (full : ℚ) - (ir : ℚ))
    / ((prv_atimeMs s_it * prv_again s_gain) / TSL2591_LUX_DF) = y
  by_cases hxy : y > x
  · rw [if_pos hxy, max_eq_right (le_of_lt hxy)]
    by_cases hy : y < 0
    · rw [if_pos hy, max_eq_left (le_of_lt hy)]
    · rw [if_neg hy, max_eq_right (not_lt.mp hy)]
  · rw [if_neg hxy, max_eq_left (not_lt.mp hxy)]
    by_cases hx : x < 0
    · rw [if_pos hx, max_eq_left (le_of_lt hx)]
    · rw [if_neg hx, max_eq_right (not_lt.mp hx)]

/-- C21: in `prv_compute_lux` the divisor `cpl = atimeMs*again/408` is strictly positive
(at least `100/408`) for every value of the stored integration-time and gain settings;
values outside the two enumerations fall back to 100 ms and gain 1. So the division is
never by zero and the branch `cpl <= 0` is never taken: the function is its body without
that branch. -/
theorem prv_compute_lux_divisor_positive (s_it s_gain : Nat) :
    0 < (prv_atimeMs s_it * prv_again s_gain) / TSL2591_LUX_DF ∧
    (100 : ℚ) / 408 ≤ (prv_atimeMs s_it * prv_again s_gain) / TSL2591_LUX_DF ∧
    (prv_atimeMs s_it * prv_again s_gain) / TSL2591_LUX_DF ≠ 0 ∧
    ¬ ((prv_atimeMs s_it * prv_again s_gain) / TSL2591_LUX_DF ≤ 0) ∧
    (5 < s_it → prv_atimeMs s_it = 100) ∧
    (3 < s_gain → prv_again s_gain = 1) ∧
    (∀ full ir : Nat,
      prv_compute_lux s_it s_gain full ir
        = (if (if ((63 / 100) * (full : ℚ) - (ir : ℚ))
                  / ((prv_atimeMs s_it * prv_again s_gain) / TSL2591_LUX_DF)
                > ((full : ℚ) - (187 / 100) * (ir : ℚ))
                  / ((prv_atimeMs s_it * prv_again s_gain) / TSL2591_LUX_DF)
              then ((63 / 100) * (full : ℚ) - (ir : ℚ))
                  / ((prv_atimeMs s_it * prv_again s_gain) / TSL2591_LUX_DF)
              else ((full : ℚ) - (187 / 100) * (ir : ℚ))
                  / ((prv_atimeMs s_it * prv_again s_gain) / TSL2591_LUX_DF)) < 0
            then 0
            else (if ((63 / 100) * (full : ℚ) - (ir : ℚ))
                  / ((prv_atimeMs s_it * prv_again s_gain) / TSL2591_LUX_DF)
                > ((full : ℚ) - (187 / 100) * (ir : ℚ))
                  / ((prv_atimeMs s_it * prv_again s_gain) / TSL2591_LUX_DF)
              then ((63 / 100) * (full : ℚ) - (ir : ℚ))
                  / ((prv_atimeMs s_it * prv_again s_gain) / TSL2591_LUX_DF)
              else ((full : ℚ) - (187 / 100) * (ir : ℚ))
                  / ((prv_atimeMs s_it * prv_again s_gain) / TSL2591_LUX_DF)))) := by
  have ha := prv_atimeMs_ge s_it
  have hg := prv_again_ge s_gain
  have hpos := prv_cpl_pos s_it s_gain
  have hmul : (100 : ℚ) ≤ prv_atimeMs s_it * prv_again s_gain := by nlinarith
  refine ⟨hpos, ?_, ne_of_gt hpos, not_le.mpr hpos, ?_, ?_, ?_⟩
  · unfold TSL2591_LUX_DF
    exact div_le_div_of_nonneg_right hmul (by norm_num)
  · intro h
    unfold prv_atimeMs
    have h0 : s_it ≠ 0 := by omega
    have h1 : s_it ≠ 1 := by omega
    have h2 : s_it ≠ 2 := by omega
    have h3 : s_it ≠ 3 := by omega
    have h4 : s_it ≠ 4 := by omega
    have h5 : s_it ≠ 5 := by omega
    simp [h0, h1, h2, h3, h4, h5]
  · intro h
    unfold prv_again
    have h0 : s_gain ≠ 0 := by omega
    have h1 : s_gain ≠ 1 := by omega
    have h2 : s_gain ≠ 2 := by omega
    have h3 : s_gain ≠ 3 := by omega
    simp [h0, h1, h2, h3]
  · intro full ir
    unfold prv_compute_lux
    simp only [not_le.mpr hpos, if_false]

/-- C22: for every raw channel pair and every integration-time/gain setting,
`prv_compute_lux` returns a value `>= 0`, and it returns exactly 0 if and only if
`0.63*full <= ir`; that condition implies `full <= 1.87*ir`, the condition of the first
formula. -/
theorem prv_compute_lux_zero_iff (s_it s_gain full ir : Nat) :
    0 ≤ prv_compute_lux s_it s_gain full ir ∧
    (prv_compute_lux s_it s_gain full ir = 0 ↔ (63 / 100 : ℚ) * (full : ℚ) ≤ (ir : ℚ)) ∧
    ((63 / 100 : ℚ) * (full : ℚ) ≤ (ir : ℚ) → (full : ℚ) ≤ (187 / 100) * (ir : ℚ)) ∧
    (0 < prv_compute_lux s_it s_gain full ir ↔ (ir : ℚ) < (63 / 100 : ℚ) * (full : ℚ)) := by
  have hc := prv_cpl_pos s_it s_gain
  have hf : (0 : ℚ) ≤ (full : ℚ) := Nat.cast_nonneg full
  have himp : (63 / 100 : ℚ) * (full : ℚ) ≤ (ir : ℚ) → (full : ℚ) ≤ (187 / 100) * (ir : ℚ) := by
    intro h
    linarith
  have hnn : 0 ≤ prv_compute_lux s_it s_gain full ir := by
    rw [prv_compute_lux_eq_max]
    exact le_max_left _ _
  have hz : prv_compute_lux s_it s_gain full ir = 0 ↔
      (63 / 100 : ℚ) * (full : ℚ) ≤ (ir : ℚ) := by
    rw [prv_compute_lux_eq_max]
    constructor
    · intro h
      have h2 : ((63 / 100) * (full : ℚ) - (ir : ℚ))
          / ((prv_atimeMs s_it * prv_again s_gain) / TSL2591_LUX_DF) ≤ 0 := by
        have := le_max_right 0 (max
          (((full : ℚ) - (187 / 100) * (ir : ℚ))
            / ((prv_atimeMs s_it * prv_again s_gain) / TSL2591_LUX_DF))
          (((63 / 100) * (full : ℚ) - (ir : ℚ))
            / ((prv_atimeMs s_it * prv_again s_gain) / TSL2591_LUX_DF)))
        rw [h] at this
        exact le_trans (le_max_right _ _) this
      have h3 := (div_le_iff₀ hc).mp h2
      linarith
    · intro h
      have ha := himp h
      apply le_antisymm
      · apply max_le (le_refl _)
        apply max_le
        · apply div_nonpos_of_nonpos_of_nonneg _ (le_of_lt hc)
          linarith
        · apply div_nonpos_of_nonpos_of_nonneg _ (le_of_lt hc)
          linarith
      · exact le_max_left _ _
  refine ⟨hnn, hz, himp, ?_⟩
  constructor
  · intro h
    by_contra hn
    have := hz.mpr (not_lt.mp hn)
    linarith
  · intro h
    rcases lt_or_eq_of_le hnn with h1 | h1
    · exact h1
    · have := hz.mp h1.symm
      linarith


/-! ## Lemmas on the float conversions -/

/-- C24: `App_TaskLightSample` and `App_TaskEnvSample` are not power-aware. On every
invocation, for every power mode (STOP included), each makes exactly one selector read
(`LightIF_Read`, resp. `EnvIF_Read`) and no query of the power mode: what the task does
and the state it leaves are those of that one selector read, the same for every mode,
and the mode is left as it was. -/
theorem light_env_tasks_not_power_aware {σ : Type} (data : TSL2591_Data_t) (env : EnvData_t)
    (sL : LightIF_State σ) (sE : EnvIF_State σ) (m : PowerMode_t) :
    ((App_TaskLightSample data ⟨sL, m⟩).calls.count TaskCall.LightIF_Read = 1 ∧
      (App_TaskLightSample data ⟨sL, m⟩).calls.count TaskCall.PowerManager_GetCurrentMode = 0 ∧
      (App_TaskLightSample data ⟨sL, m⟩).state
        = ⟨(LightIF_Read (some data) sL).state, m⟩ ∧
      (App_TaskLightSample data ⟨sL, m⟩).events = (LightIF_Read (some data) sL).events ∧
      (App_TaskLightSample data ⟨sL, m⟩).calls
        = (App_TaskLightSample data ⟨sL, PowerMode_t.POWER_MODE_STOP⟩).calls ∧
      (App_TaskLightSample data ⟨sL, PowerMode_t.POWER_MODE_STOP⟩).calls.count
        TaskCall.LightIF_Read = 1) ∧
    ((App_TaskEnvSample env ⟨sE, m⟩).calls.count TaskCall.EnvIF_Read = 1 ∧
      (App_TaskEnvSample env ⟨sE, m⟩).calls.count TaskCall.PowerManager_GetCurrentMode = 0 ∧
      (App_TaskEnvSample env ⟨sE, m⟩).state = ⟨(EnvIF_Read (some env) sE).state, m⟩ ∧
      (App_TaskEnvSample env ⟨sE, m⟩).events = (EnvIF_Read (some env) sE).events ∧
      (App_TaskEnvSample env ⟨sE, m⟩).calls
        = (App_TaskEnvSample env ⟨sE, PowerMode_t.POWER_MODE_STOP⟩).calls ∧
      (App_TaskEnvSample env ⟨sE, PowerMode_t.POWER_MODE_STOP⟩).calls.count
        TaskCall.EnvIF_Read = 1) := by
  constructor
  · unfold App_TaskLightSample
    by_cases h : (LightIF_Read (some data) sL).ret = true
    · simp [h]
    · simp [h]
  · unfold App_TaskEnvSample
    by_cases h : (EnvIF_Read (some env) sE).ret = true
    · simp [h]
    · simp [h]

/-! ## Lemmas on runs of the sampling task -/

end SensorHub
